import Mathlib

/-!
Verification development for the statistical analysis pipeline of the
escape_da_vinci repository: a shallow embedding of the column utilities
(`src/lib/utils.ts`), the cleaning pipeline (`src/lib/cleaning.ts`), the column
classifier (the complete variant), the descriptive, diagnostic and
target-detection / baseline-model stages, together with theorems settling the
specification claims about them.

Modelling conventions:
* JS numbers are modelled as exact rationals (`ℚ`); where the source calls
  `Math.sqrt` the embedding moves to `ℝ` with `Real.sqrt`.
* JS objects (dataset rows) are ordered association lists from column name to
  a scalar `Value`; a missing key reads as `null` (standing in for JS
  `undefined`, which the pipeline treats identically to `null`).
* `Number(string)` coercion is modelled for optional-sign decimal literals;
  the empty/whitespace string coerces to 0 as in JS.
* `Math.random()` draws are abstracted as an explicit stream `rand : ℕ → ℚ`.
* `toFixed(k)` rounding is modelled as round-half-up at `k` decimal places.
-/

/-- A scalar cell value of a dataset row (JS number / string / boolean / null). -/
inductive Value where
  | num (q : ℚ)
  | str (s : String)
  | bool (b : Bool)
  | null
deriving DecidableEq, Repr

/-- Lower-case a string (JS `toLowerCase`), through the character list so that
the definition evaluates. -/
def lowerStr (s : String) : String := String.mk (s.data.map Char.toLower)

/-- Trim surrounding whitespace, through the character list. -/
def trimStr (s : String) : String :=
  String.mk (((s.data.dropWhile (·.isWhitespace)).reverse.dropWhile (·.isWhitespace)).reverse)

/-- Capitalize the first character (the source's
`method.charAt(0).toUpperCase() + method.slice(1)`). -/
def capitalizeStr (s : String) : String :=
  match s.data with
  | [] => s
  | c :: rest => String.mk (c.toUpper :: rest)

/-- Numeric value of a decimal digit character, `none` otherwise. -/
def digitVal (c : Char) : Option ℕ :=
  if c.isDigit then some (c.toNat - 48) else none

/-- Parse a nonempty all-digit character list as a natural number. -/
def parseDigits (cs : List Char) : Option ℕ :=
  if cs = [] then none
  else cs.foldl (fun acc c => do
    let a ← acc
    let d ← digitVal c
    pure (a * 10 + d)) (some 0)

/-- Models the JS `Number(string)` coercion, restricted to optional-sign decimal
literals (an integer part and/or a fractional part around one decimal point);
the empty or whitespace-only string coerces to 0 as in JS. Hexadecimal and
exponent forms are not modelled; they do not occur in the data the claims are
about. `none` models `NaN`. -/
def strToNum (s : String) : Option ℚ :=
  let cs := (trimStr s).toList
  if cs = [] then some 0
  else
    let signBody : ℚ × List Char :=
      match cs with
      | '-' :: rest => (-1, rest)
      | '+' :: rest => (1, rest)
      | _ => (1, cs)
    let sign := signBody.1
    let body := signBody.2
    match body.splitOn '.' with
    | [ip] => (parseDigits ip).map (fun n => sign * n)
    | [ip, fp] =>
      if ip = [] ∧ fp = [] then none
      else
        let ipv : Option ℕ := if ip = [] then some 0 else parseDigits ip
        let fpv : Option ℕ := if fp = [] then some 0 else parseDigits fp
        match ipv, fpv with
        | some a, some b => some (sign * ((a : ℚ) + (b : ℚ) / (10 ^ fp.length)))
        | _, _ => none
    | _ => none

/-- Models JS `Number(v)`; `none` models `NaN`. (`Number(null) = 0` and
`Number(true) = 1` in JS.) -/
def Value.toNum : Value → Option ℚ
  | .num q => some q
  | .str s => strToNum s
  | .bool b => some (if b then 1 else 0)
  | .null => some 0

/-- Models the pipeline's missingness test `v == null || v === ""`. -/
def Value.isMissing : Value → Bool
  | .null => true
  | .str s => s = ""
  | _ => false

/-- Models JS `String(v)`. For non-integer numbers JS prints a shortest float
representation; the embedding only needs the integer case, which is exact. -/
def Value.toStr : Value → String
  | .num q => if q.den = 1 then toString q.num else toString q
  | .str s => s
  | .bool b => if b then "true" else "false"
  | .null => "null"

/-- A dataset row: an ordered association list from column name to value,
modelling a JS object (key order = insertion order). -/
abbrev Row := List (String × Value)

/-- Models `row[col]`; a missing key reads as `null` (JS `undefined`, which
the pipeline's `== null` checks treat like `null`). -/
def Row.get (row : Row) (col : String) : Value :=
  match row.find? (fun kv => kv.1 == col) with
  | some kv => kv.2
  | none => .null

/-- Models the object spread `{...row, [col]: v}`: replaces the value at an
existing key in place, otherwise appends the key at the end. -/
def Row.set (row : Row) (col : String) (v : Value) : Row :=
  if row.any (fun kv => kv.1 == col) then
    row.map (fun kv => if kv.1 == col then (kv.1, v) else kv)
  else row ++ [(col, v)]

/-- Keys of a row, in order (JS `Object.keys`). -/
def Row.keys (row : Row) : List String := row.map (·.1)

/-- Deduplication keeping the first occurrence, with an accumulator of already
seen elements; models the JS loop over a `Set` of seen keys. -/
def dedupFirstAux {α : Type} [DecidableEq α] (seen : List α) : List α → List α
  | [] => []
  | a :: rest =>
    if a ∈ seen then dedupFirstAux seen rest
    else a :: dedupFirstAux (a :: seen) rest

/-- Distinct elements of a list in order of first occurrence (JS `Set`
iteration order). -/
def dedupFirst {α : Type} [DecidableEq α] (l : List α) : List α := dedupFirstAux [] l

/- The Batteries `Rat` arithmetic operations are `@[irreducible]`, which blocks
`decide`-style evaluation of the embedding on concrete inputs; restore the
default reducibility for them within this file. -/
attribute [local semireducible] Rat.add Rat.mul Rat.sub Rat.inv

/-! ## Column utilities (`src/lib/utils.ts`) -/

/-- The values of one column, in row order. -/
def colValues (data : List Row) (col : String) : List Value :=
  data.map (fun row => Row.get row col)

/-- `getNumericValues`: non-missing, numeric-coercible values of a column,
coerced, order preserved. -/
def getNumericValues (data : List Row) (columnName : String) : List ℚ :=
  (colValues data columnName).filterMap
    (fun v => if v.isMissing then none else v.toNum)

/-- `isNumericColumn`: more than 90% of the non-missing values coerce to a
number. -/
def isNumericColumn (data : List Row) (columnName : String) : Bool :=
  let values := (colValues data columnName).filter (fun v => !v.isMissing)
  if values.length = 0 then false
  else decide (((values.filter (fun v => (v.toNum).isSome)).length : ℚ)
      / values.length > 9/10)

/-- `detectIdLikeColumns`: ID-like name pattern, or unique ratio above 0.95
with at least 90% numeric non-null values. -/
def detectIdLikeColumns (data : List Row) (columnName : String) : Bool :=
  if data.length = 0 then false
  else if lowerStr columnName ∈ ["id", "_id", "identifier", "key", "index", "row_num", "serial"]
  then true
  else
    let allVals := colValues data columnName
    let uniqueValues := (dedupFirst allVals).length
    let uniqueRatio : ℚ := (uniqueValues : ℚ) / data.length
    if uniqueRatio > 95/100 then
      let values := allVals.filter (fun v => !(v == Value.null))
      let numericValues := values.filter (fun v => (v.toNum).isSome)
      decide ((numericValues.length : ℚ) > (values.length : ℚ) * (9/10))
    else false

/-- `isConstantColumn`: the non-null values have exactly one distinct member;
an all-null column counts as constant. -/
def isConstantColumn (data : List Row) (columnName : String) : Bool :=
  let values := (colValues data columnName).filter (fun v => !(v == Value.null))
  if values.length = 0 then true
  else decide ((dedupFirst values).length = 1)

/-- `ss.mean` (division by 0 yields 0 in `ℚ`; the source never calls it on an
empty list). -/
def meanQ (values : List ℚ) : ℚ := values.sum / values.length

/-- `ss.median`: middle element of the sorted list, or the average of the two
middle elements. -/
def medianQ (values : List ℚ) : ℚ :=
  let sorted := values.insertionSort (· ≤ ·)
  let n := values.length
  if n = 0 then 0
  else if n % 2 = 1 then sorted.getD (n / 2) 0
  else (sorted.getD (n / 2 - 1) 0 + sorted.getD (n / 2) 0) / 2

/-- `ss.quantile` on an already sorted list: `idx = n·p`; at a non-integer
`idx` take the element at `Math.ceil(idx) - 1` (written `⌊idx⌋`, which is equal
to it on that branch); at an integer `idx` average the two neighbouring
elements when the length is even, else take the element at `idx`. -/
def quantileSorted (x : List ℚ) (p : ℚ) : ℚ :=
  let n := x.length
  let idx : ℚ := (n : ℚ) * p
  if p = 1 then x.getD (n - 1) 0
  else if p = 0 then x.getD 0 0
  else if idx.den ≠ 1 then x.getD ⌊idx⌋.toNat 0
  else if n % 2 = 0 then (x.getD (idx.num.toNat - 1) 0 + x.getD idx.num.toNat 0) / 2
  else x.getD idx.num.toNat 0

/-- IQR bounds and outlier positions; `none` bounds model the `±Infinity`
returned for fewer than 4 values. -/
structure IQRBounds where
  lower : Option ℚ
  upper : Option ℚ
  outlierIndices : List ℕ
deriving DecidableEq, Repr

/-- `v < lower` against a possibly infinite lower bound. -/
def belowLower (b : Option ℚ) (v : ℚ) : Bool :=
  match b with
  | some l => decide (v < l)
  | none => false

/-- `v > upper` against a possibly infinite upper bound. -/
def aboveUpper (b : Option ℚ) (v : ℚ) : Bool :=
  match b with
  | some u => decide (u < v)
  | none => false

/-- `detectOutliersIQR`: bounds `Q1 − 1.5·IQR` and `Q3 + 1.5·IQR` from the
sorted values, and the indices of values strictly outside them. -/
def detectOutliersIQR (values : List ℚ) : IQRBounds :=
  if values.length < 4 then ⟨none, none, []⟩
  else
    let sorted := values.insertionSort (· ≤ ·)
    let q1 := quantileSorted sorted (1/4)
    let q3 := quantileSorted sorted (3/4)
    let iqr := q3 - q1
    let lower := q1 - 3/2 * iqr
    let upper := q3 + 3/2 * iqr
    let outlierIndices :=
      ((values.enum).filter (fun p => decide (p.2 < lower) || decide (upper < p.2))).map (·.1)
    ⟨some lower, some upper, outlierIndices⟩

/-- `clipOutliers`: clamp every value into the IQR bounds, in original order,
and return the outlier count. -/
def clipOutliers (values : List ℚ) : List ℚ × ℕ :=
  let b := detectOutliersIQR values
  let clipped := values.map (fun v =>
    if belowLower b.lower v then (b.lower).getD v
    else if aboveUpper b.upper v then (b.upper).getD v
    else v)
  (clipped, b.outlierIndices.length)

/-- `imputeMissing`: median imputation for numeric columns, mode imputation
(first-encountered maximum) for the rest. -/
def imputeMissing (data : List Row) (columnName : String) (method : String) : List Row :=
  if method = "median" then
    let numericValues := getNumericValues data columnName
    if numericValues.length = 0 then data
    else
      let median := medianQ numericValues
      data.map (fun row =>
        if (Row.get row columnName).isMissing then Row.set row columnName (.num median)
        else row)
  else
    let values := (colValues data columnName).filter (fun v => !v.isMissing)
    let modeCount := (dedupFirst values).foldl
      (fun acc v =>
        let c := values.count v
        if acc.2 < c then (some v, c) else acc)
      ((none : Option Value), 0)
    data.map (fun row =>
      if (Row.get row columnName).isMissing then
        Row.set row columnName (modeCount.1.getD .null)
      else row)

example : getNumericValues [[("a", .num 1)], [("a", .str "")], [("a", .num 3)]] "a" = [1, 3] := by
  decide

example : isNumericColumn [[("a", .num 1)], [("a", .num 2)]] "a" = true := by decide

example : detectIdLikeColumns [[("a", .num 1)], [("a", .num 2)]] "a" = true := by decide

example : clipOutliers [1, 1, 1, 1, 1, 1, 1, 1, 100, 101] = ([1, 1, 1, 1, 1, 1, 1, 1, 1, 1], 2) := by
  decide

/-! ## Cleaning pipeline (`src/lib/cleaning.ts`) -/

/-- One audit record of the cleaning log. -/
structure CleaningAction where
  action : String
  column : Option String
  reason : String
  rowsAffected : Option ℕ
deriving DecidableEq, Repr

/-- Result of the cleaning pipeline; `before`/`after` are (rows, columns). -/
structure CleaningResult where
  cleanedData : List Row
  cleaningLog : List CleaningAction
  before : ℕ × ℕ
  after : ℕ × ℕ
  missingSummary : List (String × ℕ × ℕ)
  outlierSummary : List (String × ℕ × ℕ)
deriving DecidableEq, Repr

deriving instance DecidableEq for Except

/-- `removeDuplicates`: keep the first occurrence of each row (rows compared
by full structural equality, as `JSON.stringify` keys do), and report how many
rows were dropped. -/
def removeDuplicates (data : List Row) : List Row × ℕ :=
  let unique := dedupFirst data
  (unique, data.length - unique.length)

/-- `removeColumns`: rebuild every row keeping only the keys not slated for
removal, in order. -/
def removeColumns (data : List Row) (columnsToRemove : List String) : List Row :=
  data.map (fun row => row.filter (fun kv => !(columnsToRemove.contains kv.1)))

/-- Step 4 of `cleanDataset`: walk the remaining columns, imputing each column
with at least one missing entry and logging one action per imputed column.
Returns the updated data, the missing summary and the log entries. -/
def imputeStep : List Row → List String → List Row × List (String × ℕ × ℕ) × List CleaningAction
  | d, [] => (d, [], [])
  | d, col :: rest =>
    let missingCount := (d.filter (fun row => (Row.get row col).isMissing)).length
    if 0 < missingCount then
      let method := if isNumericColumn d col then "median" else "mode"
      let d2 := imputeMissing d col method
      let next := imputeStep d2 rest
      (next.1, (col, missingCount, missingCount) :: next.2.1,
        ⟨"Missing value imputation", some col,
          capitalizeStr method ++ " imputation for " ++ toString missingCount ++ " missing entries",
          some missingCount⟩ :: next.2.2)
    else imputeStep d rest

/-- Apply the clipped value list back into the rows of one column: the k-th
numeric (non-missing, coercible) cell in row order receives the k-th clipped
value, mirroring the source's `valueIndex` walk. -/
def applyClipped : List Row → String → List ℚ → List Row
  | [], _, _ => []
  | row :: rest, col, clipped =>
    let v := Row.get row col
    if !v.isMissing && (v.toNum).isSome then
      Row.set row col (.num (clipped.headD 0)) :: applyClipped rest col clipped.tail
    else row :: applyClipped rest col clipped

/-- Step 5 of `cleanDataset`: clip outliers in every numeric column, logging
one action per column with a positive outlier count. -/
def clipStep : List Row → List String → List Row × List (String × ℕ × ℕ) × List CleaningAction
  | d, [] => (d, [], [])
  | d, col :: rest =>
    if isNumericColumn d col then
      let values := getNumericValues d col
      let clippedCount := clipOutliers values
      if 0 < clippedCount.2 then
        let d2 := applyClipped d col clippedCount.1
        let next := clipStep d2 rest
        (next.1, (col, clippedCount.2, clippedCount.2) :: next.2.1,
          ⟨"Outlier clipping", some col,
            "Values beyond IQR boundaries (Q1 - 1.5×IQR, Q3 + 1.5×IQR)",
            some clippedCount.2⟩ :: next.2.2)
      else clipStep d rest
    else clipStep d rest

/-- The body of `cleanDataset` past its empty-input guard: deduplicate, remove
ID-like and constant columns, impute missing values and clip outliers,
collecting the ordered log. -/
def cleanBody (data : List Row) : CleaningResult :=
    let before := (data.length, (data.headD []).length)
    let columns := Row.keys (data.headD [])
    let dedupedRemoved := removeDuplicates data
    let deduped := dedupedRemoved.1
    let dupesRemoved := dedupedRemoved.2
    let dedupLog : List CleaningAction :=
      if 0 < dupesRemoved then
        [⟨"Remove duplicates", none, toString dupesRemoved ++ " duplicate rows detected",
          some dupesRemoved⟩]
      else []
    let idCols := columns.filter (fun c => detectIdLikeColumns deduped c)
    let idLog : List CleaningAction := idCols.map (fun c =>
      ⟨"Removed", some c, "ID-like column (high cardinality, no predictive value)", some 0⟩)
    let constCols := columns.filter (fun c =>
      !(idCols.contains c) && isConstantColumn deduped c)
    let constLog : List CleaningAction := constCols.map (fun c =>
      ⟨"Removed", some c, "Constant column (single unique value)", some 0⟩)
    let afterRemove := removeColumns deduped (idCols ++ constCols)
    let remainingColumns := Row.keys (afterRemove.headD [])
    let imputed := imputeStep afterRemove remainingColumns
    let clipped := clipStep imputed.1 remainingColumns
    ⟨clipped.1, dedupLog ++ idLog ++ constLog ++ imputed.2.2 ++ clipped.2.2,
      before, (clipped.1.length, (clipped.1.headD []).length),
      imputed.2.1, clipped.2.1⟩

/-- `cleanDataset`: the full cleaning pipeline — throw on an empty dataset,
otherwise run `cleanBody`. -/
def cleanDataset (data : List Row) : Except String CleaningResult :=
  if data.length = 0 then .error "Cannot clean empty dataset"
  else .ok (cleanBody data)

/-! ## Lemmas about the cleaning pipeline -/

theorem dedupFirstAux_length_le {α : Type} [DecidableEq α] (seen : List α) (l : List α) :
    (dedupFirstAux seen l).length ≤ l.length := by
  induction l generalizing seen with
  | nil => simp [dedupFirstAux]
  | cons a rest ih =>
    simp only [dedupFirstAux]
    split
    · exact (ih seen).trans (Nat.le_succ _)
    · simpa using ih (a :: seen)

theorem dedupFirstAux_eq_of_length {α : Type} [DecidableEq α] (seen : List α) (l : List α)
    (h : (dedupFirstAux seen l).length = l.length) : dedupFirstAux seen l = l := by
  induction l generalizing seen with
  | nil => rfl
  | cons a rest ih =>
    simp only [dedupFirstAux] at h ⊢
    split at h
    · exact absurd h
        (Nat.ne_of_lt (lt_of_le_of_lt (dedupFirstAux_length_le _ _) (Nat.lt_succ_self _)))
    · simp only [List.length_cons, Nat.succ.injEq] at h
      split
      · exact absurd h (by simp_all)
      · simp [ih _ h]

theorem dedupFirst_eq_of_sub_zero {α : Type} [DecidableEq α] (l : List α)
    (h : l.length - (dedupFirst l).length = 0) : dedupFirst l = l := by
  have hle := dedupFirstAux_length_le ([] : List α) l
  exact dedupFirstAux_eq_of_length _ _ (by unfold dedupFirst at *; omega)

theorem imputeStep_data_of_log_nil (cols : List String) (d : List Row)
    (h : (imputeStep d cols).2.2 = []) : (imputeStep d cols).1 = d := by
  induction cols generalizing d with
  | nil => rfl
  | cons c rest ih =>
    by_cases hc : 0 < (List.filter (fun row => (Row.get row c).isMissing) d).length
    · exfalso
      simp only [imputeStep, if_pos hc] at h
      simp at h
    · simp only [imputeStep, if_neg hc] at h ⊢
      exact ih _ h

theorem clipStep_data_of_log_nil (cols : List String) (d : List Row)
    (h : (clipStep d cols).2.2 = []) : (clipStep d cols).1 = d := by
  induction cols generalizing d with
  | nil => rfl
  | cons c rest ih =>
    by_cases hn : isNumericColumn d c = true
    · by_cases hc : 0 < (clipOutliers (getNumericValues d c)).2
      · exfalso
        simp only [clipStep, if_pos hn, if_pos hc] at h
        simp at h
      · simp only [clipStep, if_pos hn, if_neg hc] at h ⊢
        exact ih _ h
    · simp only [clipStep, if_neg hn] at h ⊢
      exact ih _ h

theorem removeColumns_nil (d : List Row) : removeColumns d [] = d := by
  unfold removeColumns
  have : ∀ row : Row, row.filter (fun kv => !(List.contains ([] : List String) kv.1)) = row := by
    intro row
    simp [List.filter_eq_self]
  simp [this]

theorem cleanBody_data_of_log_empty (data : List Row)
    (hlog : (cleanBody data).cleaningLog = []) : (cleanBody data).cleanedData = data := by
  simp only [cleanBody, removeDuplicates] at hlog ⊢
  simp only [List.append_eq_nil] at hlog
  obtain ⟨⟨⟨⟨h1, h2⟩, h3⟩, h4⟩, h5⟩ := hlog
  rw [List.map_eq_nil_iff] at h2 h3
  have hdup : data.length - (dedupFirst data).length = 0 := by
    by_contra hne
    rw [if_pos (Nat.pos_of_ne_zero hne)] at h1
    simp at h1
  have hded : dedupFirst data = data := dedupFirst_eq_of_sub_zero _ hdup
  rw [hded] at h2 h3 h4 h5 ⊢
  rw [h2] at h3 h4 h5 ⊢
  rw [h3] at h4 h5 ⊢
  rw [List.nil_append, removeColumns_nil] at h4 h5 ⊢
  rw [imputeStep_data_of_log_nil _ _ h4] at h5 ⊢
  rw [clipStep_data_of_log_nil _ _ h5]

/-! ## Claim C1 -/

/-- C1 (amended): the cleaning pipeline is not idempotent in general, but when
the first run performs no cleaning actions (its log is empty) the cleaned
output equals the input and a second run returns the very same result — in
particular its log is empty as well. -/
theorem clean_rerun_same_of_empty_log (data : List Row) (r : CleaningResult)
    (h : cleanDataset data = .ok r) (hlog : r.cleaningLog = []) :
    r.cleanedData = data ∧ cleanDataset r.cleanedData = .ok r := by
  by_cases hd : data.length = 0
  · rw [cleanDataset, if_pos hd] at h
    exact absurd h (by simp)
  · rw [cleanDataset, if_neg hd] at h
    have hr := Except.ok.inj h
    subst hr
    have hc := cleanBody_data_of_log_empty data hlog
    refine ⟨hc, ?_⟩
    rw [hc, cleanDataset, if_neg hd]

/-- Dataset on which the first cleaning run performs no actions: no duplicate
rows, no ID-like or constant columns, no missing values, too few numeric
values for outlier bounds. -/
def c1CleanData : List Row :=
  [[("a", .num 1), ("b", .str "x")],
   [("a", .num 2), ("b", .str "y")],
   [("a", .num 1), ("b", .str "z")]]

theorem clean_rerun_same_of_empty_log_witness :
    (⟨c1CleanData, [], (3, 2), (3, 2), [], []⟩ : CleaningResult).cleanedData = c1CleanData ∧
      cleanDataset (⟨c1CleanData, [], (3, 2), (3, 2), [], []⟩ : CleaningResult).cleanedData =
        .ok ⟨c1CleanData, [], (3, 2), (3, 2), [], []⟩ :=
  clean_rerun_same_of_empty_log c1CleanData _ (by decide) (by decide)

/-- The cleaning log of a second cleaning run on the cleaned output of a first
run, `none` when either run throws. -/
def cleanTwiceLog (data : List Row) : Option (List CleaningAction) :=
  match cleanDataset data with
  | .ok r =>
    match cleanDataset r.cleanedData with
    | .ok r2 => some r2.cleaningLog
    | .error _ => none
  | .error _ => none

/-- C1 counterexample: on the two-row dataset `[{a:1},{a:2}]` the first run
removes column `a` as ID-like, leaving two identical empty rows, so the second
cleaning run removes a duplicate row — its log is not empty. -/
theorem clean_twice_log_not_empty_counterexample :
    cleanTwiceLog [[("a", Value.num 1)], [("a", Value.num 2)]] =
      some [⟨"Remove duplicates", none, "1 duplicate rows detected", some 1⟩] ∧
    cleanTwiceLog [[("a", Value.num 1)], [("a", Value.num 2)]] ≠ some [] := by
  constructor
  · decide
  · decide

/-! ## Claim C5 -/

/-- C5: cleaning a dataset with zero rows always throws the descriptive
error (no cleaned output is produced), and for every dataset with at least
one row the empty-input branch is unreachable: the pipeline returns a
normal result. -/
theorem cleanDataset_empty_error_iff (data : List Row) :
    (data = [] → cleanDataset data = .error "Cannot clean empty dataset") ∧
    (data ≠ [] → cleanDataset data = .ok (cleanBody data)) := by
  constructor
  · rintro rfl
    rfl
  · intro h
    rw [cleanDataset, if_neg (by simpa [List.length_eq_zero] using h)]

theorem cleanDataset_empty_error_iff_witness :
    cleanDataset [] = .error "Cannot clean empty dataset" ∧
      cleanDataset [[("a", Value.num 1)]] = .ok (cleanBody [[("a", Value.num 1)]]) :=
  ⟨(cleanDataset_empty_error_iff []).1 rfl,
   (cleanDataset_empty_error_iff [[("a", Value.num 1)]]).2 (by decide)⟩

/-! ## Claim C9: clipOutliers -/

theorem sorted_getD_mono {x : List ℚ} (hs : List.Sorted (· ≤ ·) x) {i j : ℕ}
    (hij : i ≤ j) (hj : j < x.length) : x.getD i 0 ≤ x.getD j 0 := by
  have hi : i < x.length := lt_of_le_of_lt hij hj
  rw [List.getD_eq_getElem?_getD, List.getD_eq_getElem?_getD,
    List.getElem?_eq_getElem hi, List.getElem?_eq_getElem hj]
  rcases Nat.eq_or_lt_of_le hij with rfl | hlt
  · exact le_refl _
  · exact List.pairwise_iff_getElem.mp hs i j hi hj hlt

theorem quantileSorted_int_even (x : List ℚ) (p : ℚ) (hp1 : p ≠ 1) (hp0 : p ≠ 0)
    (m : ℕ) (he : (x.length : ℚ) * p = ((m : ℕ) : ℚ)) (heven : x.length % 2 = 0) :
    quantileSorted x p = (x.getD (m - 1) 0 + x.getD m 0) / 2 := by
  simp only [quantileSorted, he]
  rw [if_neg hp1, if_neg hp0, if_neg (by simp), if_pos heven]
  simp

theorem quantileSorted_frac (x : List ℚ) (p : ℚ) (hp1 : p ≠ 1) (hp0 : p ≠ 0)
    (hd : ((x.length : ℚ) * p).den ≠ 1) :
    quantileSorted x p = x.getD ⌊(x.length : ℚ) * p⌋.toNat 0 := by
  simp only [quantileSorted]
  rw [if_neg hp1, if_neg hp0, if_pos hd]

theorem quantile_q1_le_q3 (x : List ℚ) (hs : List.Sorted (· ≤ ·) x) (hn : 4 ≤ x.length) :
    quantileSorted x (1/4) ≤ quantileSorted x (3/4) := by
  have h0 : 0 < x.length := by omega
  by_cases h4 : 4 ∣ x.length
  · obtain ⟨m, hm⟩ := h4
    have hm1 : 1 ≤ m := by omega
    have e1 : ((x.length : ℚ)) * (1/4) = ((m : ℕ) : ℚ) := by rw [hm]; push_cast; ring
    have e3 : ((x.length : ℚ)) * (3/4) = ((3*m : ℕ) : ℚ) := by rw [hm]; push_cast; ring
    rw [quantileSorted_int_even x _ (by norm_num) (by norm_num) m e1 (by omega),
      quantileSorted_int_even x _ (by norm_num) (by norm_num) (3*m) e3 (by omega)]
    have hmid : x.getD m 0 ≤ x.getD (3*m - 1) 0 := sorted_getD_mono hs (by omega) (by omega)
    have hl : x.getD (m-1) 0 ≤ x.getD m 0 := sorted_getD_mono hs (by omega) (by omega)
    have hr : x.getD (3*m-1) 0 ≤ x.getD (3*m) 0 := sorted_getD_mono hs (by omega) (by omega)
    linarith
  · have hden1 : ((x.length : ℚ) * (1/4)).den ≠ 1 := by
      intro hd
      have hcoe := Rat.coe_int_num_of_den_eq_one hd
      have h2 : ((4 * ((x.length : ℚ) * (1/4)).num : ℤ) : ℚ) = ((x.length : ℕ) : ℚ) := by
        push_cast
        rw [hcoe]
        ring
      have h3 : (4 * ((x.length : ℚ) * (1/4)).num : ℤ) = (x.length : ℤ) := by exact_mod_cast h2
      omega
    have hden3 : ((x.length : ℚ) * (3/4)).den ≠ 1 := by
      intro hd
      have hcoe := Rat.coe_int_num_of_den_eq_one hd
      have h2 : ((4 * ((x.length : ℚ) * (3/4)).num : ℤ) : ℚ) = ((3 * x.length : ℕ) : ℚ) := by
        push_cast
        rw [hcoe]
        ring
      have h3 : (4 * ((x.length : ℚ) * (3/4)).num : ℤ) = (3 * x.length : ℤ) := by
        exact_mod_cast h2
      omega
    rw [quantileSorted_frac x _ (by norm_num) (by norm_num) hden1,
      quantileSorted_frac x _ (by norm_num) (by norm_num) hden3]
    have hle : (⌊(x.length : ℚ) * (1/4)⌋) ≤ ⌊(x.length : ℚ) * (3/4)⌋ := by
      apply Int.floor_le_floor
      have : (0 : ℚ) ≤ (x.length : ℚ) := by positivity
      linarith
    have hlt : ⌊(x.length : ℚ) * (3/4)⌋ < (x.length : ℤ) := by
      rw [Int.floor_lt]
      have : (0 : ℚ) < (x.length : ℚ) := by exact_mod_cast h0
      push_cast
      linarith
    exact sorted_getD_mono hs (by omega) (by omega)

theorem enumFrom_filter_snd_length {α : Type} (q : α → Bool) (l : List α) (k : ℕ) :
    ((l.enumFrom k).filter (fun p => q p.2)).length = (l.filter q).length := by
  induction l generalizing k with
  | nil => rfl
  | cons a rest ih =>
    simp only [List.enumFrom, List.filter]
    cases hq : q a <;> simp [hq, ih]

/-- The property claim C9 asserts of `clipOutliers` on at least four values,
in the spec's terms: with Q1/Q3 the quantiles of the sorted values and bounds
`Q1 - 1.5*IQR` and `Q3 + 1.5*IQR`, every clipped value lies within the bounds,
every in-bounds value is unchanged at its position, and the count equals the
number of input values strictly outside the bounds. -/
def ClipOutliersClaim (values : List ℚ) : Prop :=
  let sorted := values.insertionSort (· ≤ ·)
  let q1 := quantileSorted sorted (1/4)
  let q3 := quantileSorted sorted (3/4)
  let lower := q1 - 3/2 * (q3 - q1)
  let upper := q3 + 3/2 * (q3 - q1)
  (∀ v ∈ (clipOutliers values).1, lower ≤ v ∧ v ≤ upper) ∧
  (∀ i < values.length, lower ≤ values.getD i 0 → values.getD i 0 ≤ upper →
    (clipOutliers values).1.getD i 0 = values.getD i 0) ∧
  (clipOutliers values).2 =
    (values.filter (fun v => decide (v < lower) || decide (upper < v))).length

/-- The claim's degenerate case: fewer than four values yield infinite bounds
(`none` on both sides), an unchanged list and zero count. -/
def ClipOutliersSmallClaim (values : List ℚ) : Prop :=
  (clipOutliers values).1 = values ∧ (clipOutliers values).2 = 0 ∧
  (detectOutliersIQR values).lower = none ∧ (detectOutliersIQR values).upper = none

/-- C9: for at least 4 values, every element of the clipped array lies within
`[Q1 - 1.5*IQR, Q3 + 1.5*IQR]`, values already inside appear unchanged at the
same position, and the returned count is the number of values strictly outside
the bounds; for fewer than 4 values the bounds are infinite and the output
equals the input with count 0. -/
theorem clipOutliers_spec (values : List ℚ) :
    (4 ≤ values.length → ClipOutliersClaim values) ∧
    (values.length < 4 → ClipOutliersSmallClaim values) := by
  constructor
  · intro h4
    have hnl : ¬ values.length < 4 := by omega
    have hb : detectOutliersIQR values =
        ⟨some (quantileSorted (values.insertionSort (· ≤ ·)) (1/4) -
            3/2 * (quantileSorted (values.insertionSort (· ≤ ·)) (3/4) -
              quantileSorted (values.insertionSort (· ≤ ·)) (1/4))),
          some (quantileSorted (values.insertionSort (· ≤ ·)) (3/4) +
            3/2 * (quantileSorted (values.insertionSort (· ≤ ·)) (3/4) -
              quantileSorted (values.insertionSort (· ≤ ·)) (1/4))),
          ((values.enum).filter (fun p =>
            decide (p.2 < quantileSorted (values.insertionSort (· ≤ ·)) (1/4) -
              3/2 * (quantileSorted (values.insertionSort (· ≤ ·)) (3/4) -
                quantileSorted (values.insertionSort (· ≤ ·)) (1/4))) ||
            decide (quantileSorted (values.insertionSort (· ≤ ·)) (3/4) +
              3/2 * (quantileSorted (values.insertionSort (· ≤ ·)) (3/4) -
                quantileSorted (values.insertionSort (· ≤ ·)) (1/4)) < p.2))).map (·.1)⟩ := by
      simp only [detectOutliersIQR, if_neg hnl]
    have hsorted : List.Sorted (· ≤ ·) (values.insertionSort (· ≤ ·)) :=
      List.sorted_insertionSort _ _
    have hlen : (values.insertionSort (· ≤ ·)).length = values.length :=
      (List.perm_insertionSort _ _).length_eq
    have hq13 : quantileSorted (values.insertionSort (· ≤ ·)) (1/4) ≤
        quantileSorted (values.insertionSort (· ≤ ·)) (3/4) :=
      quantile_q1_le_q3 _ hsorted (by omega)
    simp only [ClipOutliersClaim, clipOutliers, hb]
    set q1 := quantileSorted (values.insertionSort (· ≤ ·)) (1/4) with hq1def
    set q3 := quantileSorted (values.insertionSort (· ≤ ·)) (3/4) with hq3def
    set lower := q1 - 3/2 * (q3 - q1) with hlodef
    set upper := q3 + 3/2 * (q3 - q1) with hupdef
    have hlu : lower ≤ upper := by rw [hlodef, hupdef]; linarith
    refine ⟨?_, ?_, ?_⟩
    · intro v hv
      obtain ⟨w, hw, rfl⟩ := List.mem_map.mp hv
      simp only [belowLower, aboveUpper, Option.getD_some]
      by_cases h1 : w < lower
      · simp [h1, hlu]
      · by_cases h2 : upper < w
        · simp [h1, h2, hlu]
        · simp [h1, h2, le_of_not_lt h1, le_of_not_lt h2]
    · intro i hi hge hle
      have him : i < (values.map (fun v =>
          if belowLower (some lower) v then (some lower).getD v
          else if aboveUpper (some upper) v then (some upper).getD v else v)).length := by
        simpa using hi
      rw [List.getD_eq_getElem _ _ him, List.getElem_map, List.getD_eq_getElem _ _ hi] at *
      simp only [belowLower, aboveUpper, Option.getD_some]
      rw [if_neg (by simpa using not_lt_of_le hge), if_neg (by simpa using not_lt_of_le hle)]
    · simp only [List.length_map]
      exact enumFrom_filter_snd_length
        (fun v => decide (v < lower) || decide (upper < v)) values 0
  · intro hlt
    constructor
    · simp only [clipOutliers, detectOutliersIQR, if_pos hlt, belowLower, aboveUpper]
      simp
    · refine ⟨?_, ?_, ?_⟩ <;>
        simp [clipOutliers, detectOutliersIQR, if_pos hlt, belowLower, aboveUpper]

theorem clipOutliers_spec_witness :
    4 ≤ ([1, 1, 1, 1, 100] : List ℚ).length ∧ ClipOutliersClaim [1, 1, 1, 1, 100] :=
  ⟨by norm_num, (clipOutliers_spec [1, 1, 1, 1, 100]).1 (by norm_num)⟩

/-! ## Column classifier (complete variant, with ID and binary branches) -/

/-- Column semantic types. -/
inductive ColumnType where
  | continuous
  | discrete
  | categorical
  | datetime
  | unknown
deriving DecidableEq, Repr

/-- A column profile produced by the classifier. -/
structure ColumnProfile where
  column : String
  detectedType : ColumnType
  reasoning : String
  uniqueValues : ℕ
  missingPct : ℚ
deriving DecidableEq, Repr

/-- `Number(x.toFixed(k))` modelled as round-half-up at `k` decimal places. -/
def roundTo (k : ℕ) (q : ℚ) : ℚ := ((round (q * 10 ^ k) : ℤ) : ℚ) / 10 ^ k

/-- Does a string contain one of the date separator characters '/', '-', ':', '.'. -/
def hasDateSeparator (s : String) : Bool :=
  s.data.any (fun c => c == '-' || c == '/' || c == ':' || c == '.')

/-- `detectDatetimeColumns`, with the JS `new Date` parser abstracted as the
parameter `validDate` (true when the string parses to a calendar date with
year in [1900, 2100]): sample the first 100 rows, skip missing values and pure
numbers, require a date separator, and accept the column when at least 70% of
the non-missing sampled values are valid dates. -/
def detectDatetimeColumns (validDate : String → Bool) (data : List Row)
    (columnName : String) : Bool :=
  if data.length = 0 then false
  else
    let sample := data.take (min 100 data.length)
    let validDateCount := (sample.filter (fun row =>
      let v := Row.get row columnName
      if v.isMissing then false
      else
        match v with
        | .num _ => false
        | _ => hasDateSeparator v.toStr && validDate v.toStr)).length
    let nonNullCount := (sample.filter (fun row => !(Row.get row columnName).isMissing)).length
    decide (0 < nonNullCount) && decide ((validDateCount : ℚ) / nonNullCount ≥ 7/10)

/-- The non-missing values of a column (the classifier's `values`). -/
def colNonMissing (data : List Row) (columnName : String) : List Value :=
  (colValues data columnName).filter (fun v => !v.isMissing)

/-- The classifier's `uniqueValues`: distinct non-missing values. -/
def colUniqueValues (data : List Row) (columnName : String) : ℕ :=
  (dedupFirst (colNonMissing data columnName)).length

/-- The classifier's `uniqueRatio`: distinct over non-missing count (0 when
there are no non-missing values). -/
def colUniqueRatio (data : List Row) (columnName : String) : ℚ :=
  if 0 < (colNonMissing data columnName).length then
    (colUniqueValues data columnName : ℚ) / (colNonMissing data columnName).length
  else 0

/-- Substring containment on character lists (JS `String.includes`). -/
def containsSeg (pat : List Char) : List Char → Bool
  | [] => pat.isPrefixOf []
  | c :: rest => pat.isPrefixOf (c :: rest) || containsSeg pat rest

/-- `isIdColumn`: ID-suggestive name (contains one of the patterns or ends in
"id") together with very high uniqueness. -/
def isIdColumn (columnName : String) (uniqueRatio : ℚ) : Bool :=
  let name := lowerStr columnName
  let idPatterns := ["id", "_id", "key", "code", "number", "no", "num"]
  let hasIdName := idPatterns.any (fun p => containsSeg p.data name.data)
    || "id".data.isSuffixOf name.data
  hasIdName && decide (uniqueRatio > 8/10)

/-- The classifier's binary-indicator test: the numeric values have exactly
two distinct members, 0 and 1. -/
def isBinaryNumeric (data : List Row) (columnName : String) : Bool :=
  let uniqueSet := dedupFirst ((colNonMissing data columnName).filterMap Value.toNum)
  uniqueSet.length == 2 && uniqueSet.contains 0 && uniqueSet.contains 1

/-- The classifier's discrete test: all numeric values are integers, at most
20 distinct values, and unique ratio below 0.5. -/
def isLowCardinalityInteger (data : List Row) (columnName : String) : Bool :=
  ((colNonMissing data columnName).filterMap Value.toNum).all (fun v => v.den = 1)
    && decide (colUniqueValues data columnName ≤ 20)
    && decide (colUniqueRatio data columnName < 1/2)

/-- `classifyColumn` — the complete classifier variant: datetime for mostly
string-valued date columns, then for numeric columns the ID branch
(continuous), the 0/1 binary branch (discrete), the low-cardinality-integer
branch (discrete) and the continuous fallback; non-numeric columns become
categorical at low cardinality and unknown otherwise. -/
def classifyColumn (validDate : String → Bool) (data : List Row)
    (columnName : String) : ColumnProfile :=
  let values := colNonMissing data columnName
  let totalValues := data.length
  let missingPct : ℚ := ((totalValues - values.length : ℕ) : ℚ) / (totalValues : ℚ) * 100
  let uniqueValues := colUniqueValues data columnName
  let uniqueRatio := colUniqueRatio data columnName
  let firstValue := values.headD Value.null
  let isStringColumn := match firstValue with | .str _ => true | _ => false
  if isStringColumn && detectDatetimeColumns validDate data columnName then
    ⟨columnName, .datetime, "Values are parseable as dates/times with date separators",
      uniqueValues, roundTo 2 missingPct⟩
  else if isNumericColumn data columnName then
    if isIdColumn columnName uniqueRatio then
      ⟨columnName, .continuous,
        "ID-like column with high cardinality, treated as continuous identifier",
        uniqueValues, roundTo 2 missingPct⟩
    else if isBinaryNumeric data columnName then
      ⟨columnName, .discrete, "Binary indicator (0/1), suitable for classification target or flag",
        uniqueValues, roundTo 2 missingPct⟩
    else if isLowCardinalityInteger data columnName then
      ⟨columnName, .discrete,
        "Integer values with low cardinality (" ++ toString uniqueValues ++
          " unique), suitable for countable states",
        uniqueValues, roundTo 2 missingPct⟩
    else
      ⟨columnName, .continuous,
        "High-cardinality numeric measurement (" ++ toString uniqueValues ++
          " unique values), continuous distribution",
        uniqueValues, roundTo 2 missingPct⟩
  else if decide (uniqueRatio < 1/2) || decide (uniqueValues ≤ 50) then
    ⟨columnName, .categorical,
      "Low cardinality (" ++ toString uniqueValues ++ " unique) with distinct named groups",
      uniqueValues, roundTo 2 missingPct⟩
  else
    ⟨columnName, .unknown, "Unable to determine semantic type with high confidence",
      uniqueValues, roundTo 2 missingPct⟩

/-- `classifyColumns`: one profile per column of the first row. -/
def classifyColumns (validDate : String → Bool) (data : List Row) : List ColumnProfile :=
  if data.length = 0 then []
  else (Row.keys (data.headD [])).map (fun column => classifyColumn validDate data column)

/-- `getColumnsByType`: the names of the columns of one detected type. -/
def getColumnsByType (columnProfile : List ColumnProfile) (t : ColumnType) : List String :=
  (columnProfile.filter (fun col => col.detectedType == t)).map (·.column)

/-! ## Claim C4 -/

/-- C4: for a column at least 90% numeric-coercible that is not classified
datetime and is not a 0/1 binary indicator, the complete classifier assigns
`discrete` iff all numeric values are integers, the unique count is at most 20
and the unique ratio is below 0.5; otherwise it assigns `continuous`. -/
theorem classifyColumn_discrete_iff (validDate : String → Bool) (data : List Row)
    (columnName : String)
    (hnum : isNumericColumn data columnName = true)
    (hdt : (classifyColumn validDate data columnName).detectedType ≠ ColumnType.datetime)
    (hbin : isBinaryNumeric data columnName = false) :
    ((classifyColumn validDate data columnName).detectedType = ColumnType.discrete ↔
      ((∀ v ∈ (colNonMissing data columnName).filterMap Value.toNum, v.den = 1) ∧
        colUniqueValues data columnName ≤ 20 ∧ colUniqueRatio data columnName < 1/2)) ∧
    ((classifyColumn validDate data columnName).detectedType = ColumnType.discrete ∨
      (classifyColumn validDate data columnName).detectedType = ColumnType.continuous) := by
  by_cases hdtb : ((match (colNonMissing data columnName).headD Value.null with
      | Value.str _ => true | _ => false) && detectDatetimeColumns validDate data columnName) = true
  · exfalso
    apply hdt
    simp only [classifyColumn]
    rw [if_pos hdtb]
  · simp only [classifyColumn]
    rw [if_neg hdtb, if_pos hnum]
    by_cases hid : isIdColumn columnName (colUniqueRatio data columnName) = true
    · rw [if_pos hid]
      have hr : colUniqueRatio data columnName > 8/10 := by
        simp only [isIdColumn, Bool.and_eq_true, decide_eq_true_eq] at hid
        exact hid.2
      refine ⟨⟨fun h => absurd h (by simp), ?_⟩, Or.inr rfl⟩
      rintro ⟨-, -, hrat⟩
      linarith
    · rw [if_neg hid, if_neg (by simp [hbin])]
      by_cases hlc : isLowCardinalityInteger data columnName = true
      · rw [if_pos hlc]
        simp only [isLowCardinalityInteger, Bool.and_eq_true, List.all_eq_true,
          decide_eq_true_eq] at hlc
        exact ⟨⟨fun _ => ⟨hlc.1.1, hlc.1.2, hlc.2⟩, fun _ => rfl⟩, Or.inl rfl⟩
      · rw [if_neg hlc]
        simp only [isLowCardinalityInteger, Bool.and_eq_true, List.all_eq_true,
          decide_eq_true_eq] at hlc
        refine ⟨⟨fun h => absurd h (by simp), ?_⟩, Or.inr rfl⟩
        rintro ⟨h1, h2, h3⟩
        exact (hlc ⟨⟨h1, h2⟩, h3⟩).elim

/-- A numeric integer column with unique ratio 2/5. -/
def c4Data : List Row :=
  [[("a", .num 1)], [("a", .num 1)], [("a", .num 1)], [("a", .num 2)], [("a", .num 2)]]

theorem classifyColumn_discrete_iff_witness :
    ((classifyColumn (fun _ => false) c4Data "a").detectedType = ColumnType.discrete ↔
      ((∀ v ∈ (colNonMissing c4Data "a").filterMap Value.toNum, v.den = 1) ∧
        colUniqueValues c4Data "a" ≤ 20 ∧ colUniqueRatio c4Data "a" < 1/2)) ∧
    ((classifyColumn (fun _ => false) c4Data "a").detectedType = ColumnType.discrete ∨
      (classifyColumn (fun _ => false) c4Data "a").detectedType = ColumnType.continuous) :=
  classifyColumn_discrete_iff (fun _ => false) c4Data "a" (by decide) (by decide) (by decide)

/-! ## Correlations and the diagnostic stage -/

/-- `computePearsonCorrelation`: 0 for mismatched lengths or fewer than 2
points; otherwise `(n·Σxy − Σx·Σy) / sqrt((n·Σx² − (Σx)²)·(n·Σy² − (Σy)²))`
with `Math.sqrt` modelled as `Real.sqrt`, and 0 when the denominator is 0.
The index sums run over `range x.length`; in the branch where they are used
the two lengths are equal. -/
noncomputable def computePearsonCorrelation (x y : List ℚ) : ℝ :=
  if x.length ≠ y.length ∨ x.length < 2 then 0
  else
    let n : ℚ := x.length
    let sumX := ∑ i ∈ Finset.range x.length, x.getD i 0
    let sumY := ∑ i ∈ Finset.range x.length, y.getD i 0
    let sumXY := ∑ i ∈ Finset.range x.length, x.getD i 0 * y.getD i 0
    let sumX2 := ∑ i ∈ Finset.range x.length, x.getD i 0 * x.getD i 0
    let sumY2 := ∑ i ∈ Finset.range x.length, y.getD i 0 * y.getD i 0
    let numerator : ℚ := n * sumXY - sumX * sumY
    let denominator : ℝ :=
      Real.sqrt (((n * sumX2 - sumX * sumX) * (n * sumY2 - sumY * sumY) : ℚ) : ℝ)
    if denominator = 0 then 0 else (numerator : ℝ) / denominator

/-- `getRanks`: ranks 1..n assigned through a stable sort of the indexed
values (the JS `sort` with comparator `a.value - b.value` is stable). -/
def getRanks (values : List ℚ) : List ℚ :=
  let indexed := values.enum
  let sorted := indexed.insertionSort (fun a b => a.2 ≤ b.2)
  (sorted.enum).foldl (fun ranks p => ranks.set p.2.1 ((p.1 : ℚ) + 1))
    (List.replicate values.length 0)

/-- `computeSpearmanCorrelation`: Pearson correlation of the rank lists. -/
noncomputable def computeSpearmanCorrelation (x y : List ℚ) : ℝ :=
  if x.length ≠ y.length ∨ x.length < 2 then 0
  else computePearsonCorrelation (getRanks x) (getRanks y)

/-- `computeKendallCorrelation`: Kendall's tau from the O(n²) concordant /
discordant pair count (the sign product `sign(xj−xi)·sign(yj−yi)` is positive
or negative exactly when the plain product is). -/
def computeKendallCorrelation (x y : List ℚ) : ℚ :=
  if x.length ≠ y.length ∨ x.length < 2 then 0
  else
    let n := x.length
    let prods := (List.range n).flatMap (fun i =>
      ((List.range n).filter (fun j => i < j)).map (fun j =>
        (x.getD j 0 - x.getD i 0) * (y.getD j 0 - y.getD i 0)))
    let concordant := (prods.filter (fun p => decide (0 < p))).length
    let discordant := (prods.filter (fun p => decide (p < 0))).length
    ((concordant : ℚ) - (discordant : ℚ)) / (1/2 * (n : ℚ) * ((n : ℚ) - 1))

/-- `Number(x.toFixed(k))` on a float, modelled as round-half-up at `k`
decimal places into `ℚ`. -/
noncomputable def roundToR (k : ℕ) (x : ℝ) : ℚ := ((round (x * 10 ^ k) : ℤ) : ℚ) / 10 ^ k

/-- `computeVIF`: average absolute pairwise correlation of the feature with
all others, squared to an R², then `1/(1−R²)`, capped at 10 when `R² ≥ 1`;
1 when the matrix has fewer than 2 features. -/
noncomputable def computeVIF (correlationMatrix : List (List ℝ)) (featureIndex : ℕ) : ℝ :=
  let n := correlationMatrix.length
  if n < 2 then 1
  else
    let correlations := ((correlationMatrix.getD featureIndex []).enum.filter
      (fun p => p.1 ≠ featureIndex)).map (·.2)
    let avgCorrelation := (correlations.map (fun r => |r|)).sum / correlations.length
    let rSquared := avgCorrelation * avgCorrelation
    if 1 ≤ rSquared then 10 else 1 / (1 - rSquared)

/-- Multicollinearity status. -/
inductive VifStatus where
  | acceptable
  | moderate
  | high
deriving DecidableEq, Repr

/-- One multicollinearity warning (`vif` is the displayed rounded score). -/
structure MulticollinearityWarning where
  feature : String
  vif : ℚ
  status : VifStatus

/-- The status mapping applied to a raw VIF score: `acceptable` below 5,
`moderate` below 10, else `high`. -/
noncomputable def vifStatus (vif : ℝ) : VifStatus :=
  if vif < 5 then .acceptable else if vif < 10 then .moderate else .high

/-- `detectMulticollinearity`: one warning per column, from its VIF score. -/
noncomputable def detectMulticollinearity (columns : List String)
    (correlationMatrix : List (List ℝ)) : List MulticollinearityWarning :=
  columns.enum.map (fun p =>
    let vif := computeVIF correlationMatrix p.1
    ⟨p.2, roundToR 2 vif, vifStatus vif⟩)

/-- `computeCorrelationMatrix`: N×N, diagonal 1.0, the (i,j) entry the Pearson
correlation of the two columns' independently extracted numeric values. -/
noncomputable def computeCorrelationMatrix (data : List Row) (columns : List String) :
    List (List ℝ) :=
  (List.range columns.length).map (fun i =>
    (List.range columns.length).map (fun j =>
      if i = j then 1.0
      else computePearsonCorrelation (getNumericValues data (columns.getD i ""))
        (getNumericValues data (columns.getD j ""))))

/-- One retained correlation pair (`pearson`, `spearman`, `kendall` store the
rounded display values). -/
structure CorrelationPair where
  pair : String
  pearson : ℚ
  spearman : ℚ
  kendall : ℚ
  interpretation : String

/-- `interpretCorrelation` from the raw Pearson and Spearman values. -/
noncomputable def interpretCorrelation (pearson spearman : ℝ) : String :=
  let absPearson := |pearson|
  let absSpearman := |spearman|
  let direction := if 0 < pearson then "positive" else "negative"
  let strength :=
    if 7/10 ≤ absPearson then "Strong"
    else if 5/10 ≤ absPearson then "Moderate"
    else if 3/10 ≤ absPearson then "Weak"
    else "Very weak"
  let relationship := if 2/10 < |absSpearman - absPearson| then "monotonic" else "linear"
  strength ++ " " ++ direction ++ " " ++ relationship ++ " relationship"

/-- The correlation pair built for columns `i < j`. -/
noncomputable def mkCorrelationPair (data : List Row) (columns : List String)
    (pearsonMatrix : List (List ℝ)) (i j : ℕ) : CorrelationPair :=
  let pearson := (pearsonMatrix.getD i []).getD j 0
  let valuesI := getNumericValues data (columns.getD i "")
  let valuesJ := getNumericValues data (columns.getD j "")
  let spearman := computeSpearmanCorrelation valuesI valuesJ
  let kendall := computeKendallCorrelation valuesI valuesJ
  ⟨columns.getD i "" ++ " ↔ " ++ columns.getD j "",
    roundToR 2 pearson, roundToR 2 spearman, roundTo 2 kendall,
    interpretCorrelation pearson spearman⟩

open Classical in
/-- `findStrongCorrelations`: for every pair `i < j` with `|pearson| ≥ 0.3`
build a pair record, sort the records by absolute stored Pearson descending
(stable, as the JS sort), keep the top 20. -/
noncomputable def findStrongCorrelations (data : List Row) (columns : List String)
    (pearsonMatrix : List (List ℝ)) : List CorrelationPair :=
  let pairs := (List.range columns.length).flatMap (fun i =>
    ((List.range columns.length).filter (fun j => i < j)).filterMap (fun j =>
      if 3/10 ≤ |(pearsonMatrix.getD i []).getD j 0| then
        some (mkCorrelationPair data columns pearsonMatrix i j)
      else none))
  (pairs.insertionSort (fun a b => |b.pearson| ≤ |a.pearson|)).take 20

/-- Result of the diagnostic stage. -/
structure DiagnosticResult where
  correlations : List CorrelationPair
  multicollinearity : List MulticollinearityWarning
  pearsonMatrix : List (List ℝ)

/-- The diagnostic stage's `numericColumns`: the names of the columns whose
detected type is continuous or discrete. -/
def numericProfileColumns (columnProfile : List ColumnProfile) : List String :=
  (columnProfile.filter (fun col =>
    col.detectedType == ColumnType.continuous
      || col.detectedType == ColumnType.discrete)).map (·.column)

/-- `computeDiagnosticStats`: restricted to continuous/discrete columns;
empty results when fewer than two such columns exist. -/
noncomputable def computeDiagnosticStats (data : List Row)
    (columnProfile : List ColumnProfile) : DiagnosticResult :=
  let numericColumns := numericProfileColumns columnProfile
  if numericColumns.length < 2 then ⟨[], [], []⟩
  else
    let pearsonMatrix := computeCorrelationMatrix data numericColumns
    ⟨findStrongCorrelations data numericColumns pearsonMatrix,
      detectMulticollinearity numericColumns pearsonMatrix,
      pearsonMatrix⟩

theorem lagrange_expand (n : ℕ) (X Y : ℕ → ℚ) :
    ∑ p ∈ Finset.range n ×ˢ Finset.range n, (X p.1 - X p.2) * (Y p.1 - Y p.2)
      = 2 * ((n : ℚ) * (∑ i ∈ Finset.range n, X i * Y i)
          - (∑ i ∈ Finset.range n, X i) * (∑ i ∈ Finset.range n, Y i)) := by
  rw [Finset.sum_product]
  have e : ∀ i j : ℕ, (X i - X j) * (Y i - Y j)
      = X i * Y i - X i * Y j - X j * Y i + X j * Y j := by intros; ring
  simp only [e, Finset.sum_add_distrib, Finset.sum_sub_distrib, ← Finset.mul_sum,
    ← Finset.sum_mul, Finset.sum_const, Finset.card_range, nsmul_eq_mul]
  have e3 : ∑ x ∈ Finset.range n, X x * ((n : ℚ) * Y x)
      = (n : ℚ) * ∑ x ∈ Finset.range n, X x * Y x := by
    rw [Finset.mul_sum]
    exact Finset.sum_congr rfl (fun x _ => by ring)
  rw [e3]
  ring

theorem pearson_num_sq_le (n : ℕ) (X Y : ℕ → ℚ) :
    ((n : ℚ) * (∑ i ∈ Finset.range n, X i * Y i)
        - (∑ i ∈ Finset.range n, X i) * (∑ i ∈ Finset.range n, Y i)) ^ 2
      ≤ ((n : ℚ) * (∑ i ∈ Finset.range n, X i * X i)
          - (∑ i ∈ Finset.range n, X i) * (∑ i ∈ Finset.range n, X i))
        * ((n : ℚ) * (∑ i ∈ Finset.range n, Y i * Y i)
          - (∑ i ∈ Finset.range n, Y i) * (∑ i ∈ Finset.range n, Y i)) := by
  have hcs := Finset.sum_mul_sq_le_sq_mul_sq (Finset.range n ×ˢ Finset.range n)
    (fun p => X p.1 - X p.2) (fun p => Y p.1 - Y p.2)
  simp only [pow_two] at hcs ⊢
  rw [lagrange_expand n X Y, lagrange_expand n X X, lagrange_expand n Y Y] at hcs
  nlinarith [hcs]

theorem pearson_denom_sq_nonneg (n : ℕ) (X : ℕ → ℚ) :
    0 ≤ (n : ℚ) * (∑ i ∈ Finset.range n, X i * X i)
      - (∑ i ∈ Finset.range n, X i) * (∑ i ∈ Finset.range n, X i) := by
  have h := lagrange_expand n X X
  have hnn : 0 ≤ ∑ p ∈ Finset.range n ×ˢ Finset.range n, (X p.1 - X p.2) * (X p.1 - X p.2) :=
    Finset.sum_nonneg (fun p _ => mul_self_nonneg _)
  nlinarith [h, hnn]

theorem computePearsonCorrelation_comm (x y : List ℚ) :
    computePearsonCorrelation x y = computePearsonCorrelation y x := by
  simp only [computePearsonCorrelation]
  by_cases h : x.length = y.length
  · rw [← h]
    have e1 : ∑ i ∈ Finset.range x.length, y.getD i 0 * x.getD i 0
        = ∑ i ∈ Finset.range x.length, x.getD i 0 * y.getD i 0 :=
      Finset.sum_congr rfl (fun i _ => mul_comm _ _)
    rw [e1]
    rw [mul_comm ((x.length : ℚ) * (∑ i ∈ Finset.range x.length, y.getD i 0 * y.getD i 0)
        - (∑ i ∈ Finset.range x.length, y.getD i 0) * (∑ i ∈ Finset.range x.length, y.getD i 0))
      ((x.length : ℚ) * (∑ i ∈ Finset.range x.length, x.getD i 0 * x.getD i 0)
        - (∑ i ∈ Finset.range x.length, x.getD i 0) * (∑ i ∈ Finset.range x.length, x.getD i 0))]
    rw [mul_comm (∑ i ∈ Finset.range x.length, y.getD i 0)
      (∑ i ∈ Finset.range x.length, x.getD i 0)]
  · rw [if_pos (Or.inl h), if_pos (Or.inl (fun hh => h hh.symm))]

theorem abs_computePearsonCorrelation_le_one (x y : List ℚ) :
    |computePearsonCorrelation x y| ≤ 1 := by
  simp only [computePearsonCorrelation]
  split
  · simp
  · have hnum2 := pearson_num_sq_le x.length (fun i => x.getD i 0) (fun i => y.getD i 0)
    have hDx := pearson_denom_sq_nonneg x.length (fun i => x.getD i 0)
    have hDy := pearson_denom_sq_nonneg x.length (fun i => y.getD i 0)
    simp only at hnum2 hDx hDy
    split
    · simp
    · rename_i hd
      have hpos : 0 < Real.sqrt
          ((((x.length : ℚ) * (∑ i ∈ Finset.range x.length, x.getD i 0 * x.getD i 0)
              - (∑ i ∈ Finset.range x.length, x.getD i 0) * (∑ i ∈ Finset.range x.length, x.getD i 0))
            * ((x.length : ℚ) * (∑ i ∈ Finset.range x.length, y.getD i 0 * y.getD i 0)
              - (∑ i ∈ Finset.range x.length, y.getD i 0) * (∑ i ∈ Finset.range x.length, y.getD i 0)) : ℚ) : ℝ) :=
        lt_of_le_of_ne (Real.sqrt_nonneg _) (Ne.symm hd)
      rw [abs_div, abs_of_pos hpos]
      rw [div_le_one hpos]
      have hsq : ((((x.length : ℚ) * (∑ i ∈ Finset.range x.length, x.getD i 0 * y.getD i 0)
          - (∑ i ∈ Finset.range x.length, x.getD i 0) * (∑ i ∈ Finset.range x.length, y.getD i 0) : ℚ) : ℝ)) ^ 2
          ≤ ((((x.length : ℚ) * (∑ i ∈ Finset.range x.length, x.getD i 0 * x.getD i 0)
              - (∑ i ∈ Finset.range x.length, x.getD i 0) * (∑ i ∈ Finset.range x.length, x.getD i 0))
            * ((x.length : ℚ) * (∑ i ∈ Finset.range x.length, y.getD i 0 * y.getD i 0)
              - (∑ i ∈ Finset.range x.length, y.getD i 0) * (∑ i ∈ Finset.range x.length, y.getD i 0)) : ℚ) : ℝ) := by
        exact_mod_cast hnum2
      calc |((((x.length : ℚ) * (∑ i ∈ Finset.range x.length, x.getD i 0 * y.getD i 0)
            - (∑ i ∈ Finset.range x.length, x.getD i 0) * (∑ i ∈ Finset.range x.length, y.getD i 0) : ℚ) : ℝ))|
          = Real.sqrt (((((x.length : ℚ) * (∑ i ∈ Finset.range x.length, x.getD i 0 * y.getD i 0)
            - (∑ i ∈ Finset.range x.length, x.getD i 0) * (∑ i ∈ Finset.range x.length, y.getD i 0) : ℚ) : ℝ)) ^ 2) :=
            (Real.sqrt_sq_eq_abs _).symm
        _ ≤ _ := Real.sqrt_le_sqrt hsq

/-- Entry (i,j) of a matrix stored as a list of rows. -/
def Ment (m : List (List ℝ)) (i j : ℕ) : ℝ := (m.getD i []).getD j 0

theorem Ment_computeCorrelationMatrix (data : List Row) (cols : List String) {i j : ℕ}
    (hi : i < cols.length) (hj : j < cols.length) :
    Ment (computeCorrelationMatrix data cols) i j
      = if i = j then 1 else
          computePearsonCorrelation (getNumericValues data (cols.getD i ""))
            (getNumericValues data (cols.getD j "")) := by
  simp [Ment, computeCorrelationMatrix, List.getD_eq_getElem?_getD, List.getElem?_map,
    List.getElem?_range hi, List.getElem?_range hj]
  split <;> norm_num

/-! ## Claim C8 -/

/-- C8: with at least two numeric (continuous/discrete) columns, the diagnostic
stage's Pearson matrix is symmetric, has unit diagonal, and every entry has
absolute value at most 1. -/
theorem diagnostic_pearson_matrix_props (data : List Row) (columnProfile : List ColumnProfile)
    (h2 : 2 ≤ (numericProfileColumns columnProfile).length) :
    ∀ i j, i < (numericProfileColumns columnProfile).length →
      j < (numericProfileColumns columnProfile).length →
      (Ment ((computeDiagnosticStats data columnProfile).pearsonMatrix) i j
          = Ment ((computeDiagnosticStats data columnProfile).pearsonMatrix) j i
        ∧ Ment ((computeDiagnosticStats data columnProfile).pearsonMatrix) i i = 1
        ∧ |Ment ((computeDiagnosticStats data columnProfile).pearsonMatrix) i j| ≤ 1) := by
  intro i j hi hj
  have hmat : (computeDiagnosticStats data columnProfile).pearsonMatrix
      = computeCorrelationMatrix data (numericProfileColumns columnProfile) := by
    simp only [computeDiagnosticStats]
    rw [if_neg (by omega)]
  rw [hmat]
  refine ⟨?_, ?_, ?_⟩
  · rw [Ment_computeCorrelationMatrix data _ hi hj, Ment_computeCorrelationMatrix data _ hj hi]
    by_cases hij : i = j
    · simp [hij]
    · rw [if_neg hij, if_neg (fun hh => hij hh.symm)]
      exact computePearsonCorrelation_comm _ _
  · rw [Ment_computeCorrelationMatrix data _ hi hi]
    simp
  · rw [Ment_computeCorrelationMatrix data _ hi hj]
    by_cases hij : i = j
    · simp [hij]
    · rw [if_neg hij]
      exact abs_computePearsonCorrelation_le_one _ _

/-- Two-numeric-column profile for the C8 witness. -/
def c8Profile : List ColumnProfile :=
  [⟨"a", .continuous, "numeric", 2, 0⟩, ⟨"b", .discrete, "numeric", 2, 0⟩]

/-- Two-column dataset for the C8 witness. -/
def c8Data : List Row :=
  [[("a", .num 1), ("b", .num 2)], [("a", .num 2), ("b", .num 1)]]

theorem diagnostic_pearson_matrix_props_witness :
    Ment ((computeDiagnosticStats c8Data c8Profile).pearsonMatrix) 0 1
        = Ment ((computeDiagnosticStats c8Data c8Profile).pearsonMatrix) 1 0
      ∧ Ment ((computeDiagnosticStats c8Data c8Profile).pearsonMatrix) 0 0 = 1
      ∧ |Ment ((computeDiagnosticStats c8Data c8Profile).pearsonMatrix) 0 1| ≤ 1 :=
  diagnostic_pearson_matrix_props c8Data c8Profile (by decide) 0 1 (by decide) (by decide)

/-! ## Claim C10 -/

/-- C10: for two distinct numeric columns whose independently extracted numeric
value lists have different lengths, or a common length below 2, the
off-diagonal Pearson matrix entry is exactly 0 (no error is raised — the
correlation function returns 0 in that branch). -/
theorem pearson_entry_zero_of_misaligned (data : List Row) (cols : List String) (i j : ℕ)
    (hij : i ≠ j) (hi : i < cols.length) (hj : j < cols.length)
    (hmis : (getNumericValues data (cols.getD i "")).length
        ≠ (getNumericValues data (cols.getD j "")).length
      ∨ (getNumericValues data (cols.getD i "")).length < 2) :
    Ment (computeCorrelationMatrix data cols) i j = 0 := by
  rw [Ment_computeCorrelationMatrix data cols hi hj, if_neg hij]
  simp only [computePearsonCorrelation]
  rw [if_pos hmis]

/-- Misaligned dataset for the C10 witness: column `y` has a missing value, so
its numeric list is shorter than `x`'s. -/
def c10Data : List Row :=
  [[("x", .num 1), ("y", .num 1)], [("x", .num 2), ("y", .null)], [("x", .num 3), ("y", .num 3)]]

theorem pearson_entry_zero_of_misaligned_witness :
    Ment (computeCorrelationMatrix c10Data ["x", "y"]) 0 1 = 0 :=
  pearson_entry_zero_of_misaligned c10Data ["x", "y"] 0 1 (by decide) (by decide) (by decide)
    (by decide)

/-! ## Claim C7 -/

/-- C7: the multicollinearity status of a VIF score is `acceptable` exactly
below 5, `moderate` exactly in [5, 10), `high` exactly from 10 (so 4.9, 5.0,
9.9, 10.0 map to acceptable / moderate / moderate / high), and the diagnostic
stage emits one warning per numeric column whose status is this mapping of the
column's VIF score, independent of the correlation-pair filter. -/
theorem vif_status_spec :
    vifStatus ((49 : ℝ)/10) = VifStatus.acceptable ∧ vifStatus 5 = VifStatus.moderate ∧
    vifStatus ((99 : ℝ)/10) = VifStatus.moderate ∧ vifStatus 10 = VifStatus.high ∧
    (∀ v : ℝ, (vifStatus v = VifStatus.acceptable ↔ v < 5) ∧
      (vifStatus v = VifStatus.moderate ↔ 5 ≤ v ∧ v < 10) ∧
      (vifStatus v = VifStatus.high ↔ 10 ≤ v)) ∧
    ∀ (columns : List String) (m : List (List ℝ)),
      (detectMulticollinearity columns m).length = columns.length ∧
      ∀ k, k < columns.length →
        ((detectMulticollinearity columns m).getD k ⟨"", 0, VifStatus.high⟩).status
          = vifStatus (computeVIF m k) := by
  refine ⟨by norm_num [vifStatus], by norm_num [vifStatus], by norm_num [vifStatus],
    by norm_num [vifStatus], ?_, ?_⟩
  · intro v
    unfold vifStatus
    by_cases h1 : v < 5
    · rw [if_pos h1]
      exact ⟨⟨fun _ => h1, fun _ => rfl⟩,
        ⟨fun h => absurd h (by decide), fun hh => absurd hh.1 (by linarith)⟩,
        ⟨fun h => absurd h (by decide), fun hh => absurd hh (by linarith)⟩⟩
    · rw [if_neg h1]
      by_cases h2 : v < 10
      · rw [if_pos h2]
        exact ⟨⟨fun h => absurd h (by decide), fun hh => absurd hh h1⟩,
          ⟨fun _ => ⟨le_of_not_lt h1, h2⟩, fun _ => rfl⟩,
          ⟨fun h => absurd h (by decide), fun hh => absurd hh (by linarith)⟩⟩
      · rw [if_neg h2]
        exact ⟨⟨fun h => absurd h (by decide), fun hh => absurd hh h1⟩,
          ⟨fun h => absurd h (by decide), fun hh => absurd hh.2 h2⟩,
          ⟨fun _ => le_of_not_lt h2, fun _ => rfl⟩⟩
  · intro columns m
    constructor
    · simp [detectMulticollinearity]
    · intro k hk
      unfold detectMulticollinearity
      rw [List.getD_eq_getElem _ _ (by simpa using hk), List.getElem_map]
      simp [List.getElem_enum]

/-- Identity 2×2 correlation matrix for the C7 witness. -/
def c7Matrix : List (List ℝ) := [[1, 0], [0, 1]]

theorem vif_status_spec_witness :
    ((detectMulticollinearity ["a", "b"] c7Matrix).getD 0
        ⟨"", 0, VifStatus.high⟩).status = vifStatus (computeVIF c7Matrix 0) :=
  ((vif_status_spec.2.2.2.2.2 ["a", "b"] c7Matrix).2 0 (by norm_num))

/-- Descending order on the stored (rounded) Pearson magnitude. -/
def pearsonDescRel (a b : CorrelationPair) : Prop := |b.pearson| ≤ |a.pearson|

instance : DecidableRel pearsonDescRel :=
  fun a b => inferInstanceAs (Decidable (|b.pearson| ≤ |a.pearson|))

instance : IsTotal CorrelationPair pearsonDescRel := ⟨fun a b => le_total _ _⟩

instance : IsTrans CorrelationPair pearsonDescRel := ⟨fun _ _ _ h1 h2 => le_trans h2 h1⟩

/-! ## Claim C6 -/

/-- C6: with at least two numeric columns, the diagnostic stage's correlation
list has at most 20 entries, is sorted by the absolute stored Pearson value
descending, contains only pairs `i < j` (one direction per unordered pair)
whose raw Pearson matrix entry has absolute value at least 0.3, and — whenever
it is not full — contains every such pair. -/
theorem strong_correlations_spec (data : List Row) (columnProfile : List ColumnProfile)
    (h2 : 2 ≤ (numericProfileColumns columnProfile).length) :
    (computeDiagnosticStats data columnProfile).correlations.length ≤ 20 ∧
    List.Sorted pearsonDescRel (computeDiagnosticStats data columnProfile).correlations ∧
    (∀ p ∈ (computeDiagnosticStats data columnProfile).correlations,
      ∃ i j, i < j ∧ j < (numericProfileColumns columnProfile).length ∧
        3/10 ≤ |Ment (computeCorrelationMatrix data (numericProfileColumns columnProfile)) i j| ∧
        p = mkCorrelationPair data (numericProfileColumns columnProfile)
          (computeCorrelationMatrix data (numericProfileColumns columnProfile)) i j) ∧
    ((computeDiagnosticStats data columnProfile).correlations.length < 20 →
      ∀ i j, i < j → j < (numericProfileColumns columnProfile).length →
        3/10 ≤ |Ment (computeCorrelationMatrix data (numericProfileColumns columnProfile)) i j| →
        mkCorrelationPair data (numericProfileColumns columnProfile)
          (computeCorrelationMatrix data (numericProfileColumns columnProfile)) i j
          ∈ (computeDiagnosticStats data columnProfile).correlations) := by
  have hres : (computeDiagnosticStats data columnProfile).correlations
      = findStrongCorrelations data (numericProfileColumns columnProfile)
          (computeCorrelationMatrix data (numericProfileColumns columnProfile)) := by
    simp only [computeDiagnosticStats]
    rw [if_neg (by omega)]
  rw [hres]
  simp only [findStrongCorrelations]
  set cols := numericProfileColumns columnProfile with hcols
  set M := computeCorrelationMatrix data cols with hMdef
  set pairs := (List.range cols.length).flatMap (fun i =>
    ((List.range cols.length).filter (fun j => i < j)).filterMap (fun j =>
      if 3/10 ≤ |(M.getD i []).getD j 0| then
        some (mkCorrelationPair data cols M i j)
      else none)) with hpairs
  have hsorted : List.Sorted pearsonDescRel
      (pairs.insertionSort (fun a b => |b.pearson| ≤ |a.pearson|)) :=
    List.sorted_insertionSort pearsonDescRel pairs
  refine ⟨?_, ?_, ?_, ?_⟩
  · exact le_trans (le_of_eq (List.length_take _ _)) (min_le_left _ _)
  · exact hsorted.sublist (List.take_sublist _ _)
  · intro p hp
    have hp2 : p ∈ pairs := by
      have := List.mem_of_mem_take hp
      exact (List.mem_insertionSort _).mp this
    obtain ⟨i, hi, hmem⟩ := List.mem_flatMap.mp hp2
    obtain ⟨j, hjmem, hf⟩ := List.mem_filterMap.mp hmem
    obtain ⟨hjr, hij⟩ := List.mem_filter.mp hjmem
    refine ⟨i, j, by simpa using hij, by simpa using hjr, ?_, ?_⟩
    · by_cases hc : 3/10 ≤ |(M.getD i []).getD j 0|
      · simpa [Ment] using hc
      · rw [if_neg hc] at hf
        exact absurd hf (by simp)
    · by_cases hc : 3/10 ≤ |(M.getD i []).getD j 0|
      · rw [if_pos hc] at hf
        exact (Option.some.inj hf).symm
      · rw [if_neg hc] at hf
        exact absurd hf (by simp)
  · intro hlen i j hij hj hcond
    have hslen : (pairs.insertionSort (fun a b => |b.pearson| ≤ |a.pearson|)).length
        = pairs.length := (List.perm_insertionSort _ _).length_eq
    rw [List.length_take] at hlen
    have hlt : (pairs.insertionSort (fun a b => |b.pearson| ≤ |a.pearson|)).length < 20 := by
      omega
    rw [List.take_of_length_le (by omega)]
    rw [List.mem_insertionSort]
    rw [hpairs]
    refine List.mem_flatMap.mpr ⟨i, List.mem_range.mpr (lt_trans hij hj), ?_⟩
    refine List.mem_filterMap.mpr ⟨j, List.mem_filter.mpr ⟨List.mem_range.mpr hj, by simpa using hij⟩, ?_⟩
    rw [if_pos (by simpa [Ment] using hcond)]

/-- Profile for the C6 witness (both columns numeric). -/
def c6Profile : List ColumnProfile :=
  [⟨"a", .continuous, "numeric", 2, 0⟩, ⟨"b", .discrete, "numeric", 2, 0⟩]

/-- Dataset for the C6 witness. -/
def c6Data : List Row :=
  [[("a", .num 1), ("b", .num 2)], [("a", .num 2), ("b", .num 1)], [("a", .num 3), ("b", .num 5)]]

theorem strong_correlations_spec_witness :
    (computeDiagnosticStats c6Data c6Profile).correlations.length ≤ 20 ∧
      List.Sorted pearsonDescRel (computeDiagnosticStats c6Data c6Profile).correlations :=
  ⟨(strong_correlations_spec c6Data c6Profile (by decide)).1,
   (strong_correlations_spec c6Data c6Profile (by decide)).2.1⟩

/-! ## Descriptive statistics (`src/lib/descriptive.ts`, `src/lib/utils.ts`) -/

/-- `ss.variance`: the population variance (mean of squared deviations,
divide by n). -/
def varianceQ (x : List ℚ) : ℚ :=
  (x.map (fun v => (v - meanQ x) * (v - meanQ x))).sum / x.length

/-- `ss.standardDeviation`: 0 for a single value, else the square root of the
population variance. -/
noncomputable def standardDeviation (x : List ℚ) : ℝ :=
  if x.length = 1 then 0 else Real.sqrt ((varianceQ x : ℚ) : ℝ)

/-- `computeSkewness`: third standardized population moment; 0 below 3 values
or at zero standard deviation. -/
noncomputable def computeSkewness (values : List ℚ) : ℝ :=
  if values.length < 3 then 0
  else
    let mean := meanQ values
    let std := standardDeviation values
    if std = 0 then 0
    else ((values.map (fun v => ((((v - mean : ℚ)) : ℝ) / std) ^ 3)).sum) / values.length

/-- `computeKurtosis`: excess kurtosis from the fourth standardized population
moment; 0 below 4 values or at zero standard deviation. -/
noncomputable def computeKurtosis (values : List ℚ) : ℝ :=
  if values.length < 4 then 0
  else
    let mean := meanQ values
    let std := standardDeviation values
    if std = 0 then 0
    else ((values.map (fun v => ((((v - mean : ℚ)) : ℝ) / std) ^ 4)).sum) / values.length - 3

/-- `coefficientOfVariation`: std over |mean|, 0 at zero mean. -/
noncomputable def coefficientOfVariation (values : List ℚ) : ℝ :=
  if meanQ values = 0 then 0
  else standardDeviation values / |((meanQ values : ℚ) : ℝ)|

/-- `ss.min` (the source never calls it on an empty list). -/
def minQ (values : List ℚ) : ℚ := values.foldl min (values.headD 0)

/-- `ss.max`. -/
def maxQ (values : List ℚ) : ℚ := values.foldl max (values.headD 0)

/-- Numeric column statistics; every field stores the rounded display value. -/
structure NumericStats where
  column : String
  mean : ℚ
  median : ℚ
  std : ℚ
  skewness : ℚ
  kurtosis : ℚ
  cv : ℚ
  min : ℚ
  max : ℚ
  q25 : ℚ
  q75 : ℚ

instance : Inhabited NumericStats := ⟨⟨"", 0, 0, 0, 0, 0, 0, 0, 0, 0, 0⟩⟩

/-- `computeNumericStats`: an all-zero record when the column has no numeric
values, else the rounded summary statistics. -/
noncomputable def computeNumericStats (data : List Row) (columnName : String) : NumericStats :=
  let values := getNumericValues data columnName
  if values.length = 0 then ⟨columnName, 0, 0, 0, 0, 0, 0, 0, 0, 0, 0⟩
  else
    let sorted := values.insertionSort (· ≤ ·)
    ⟨columnName, roundTo 2 (meanQ values), roundTo 2 (medianQ values),
      roundToR 2 (standardDeviation values),
      roundToR 2 (computeSkewness values), roundToR 2 (computeKurtosis values),
      roundToR 2 (coefficientOfVariation values),
      roundTo 2 (minQ values), roundTo 2 (maxQ values),
      roundTo 2 (quantileSorted sorted (1/4)), roundTo 2 (quantileSorted sorted (3/4))⟩

/-- `computeEntropy`: Shannon entropy in bits of the empirical distribution. -/
noncomputable def computeEntropy (values : List Value) : ℝ :=
  let total := values.length
  let s := ((dedupFirst values).map (fun v =>
      let p : ℚ := (values.count v : ℚ) / total
      if 0 < p then (p : ℝ) * Real.logb 2 (p : ℝ) else 0)).sum;
  -s

/-- One frequency-table entry. -/
structure CategoryCount where
  value : String
  count : ℕ
  percent : ℚ

/-- Categorical column statistics. -/
structure CategoricalStats where
  column : String
  uniqueCount : ℕ
  entropy : ℚ
  topCategories : List CategoryCount
  dominantCategory : String
  dominantPct : ℚ

/-- `computeCategoricalStats`: an empty record when the column has no
non-missing values, else the frequency table sorted by count descending
(stable), top 10, the dominant category and rounded entropy. -/
noncomputable def computeCategoricalStats (data : List Row) (columnName : String) :
    CategoricalStats :=
  let values := (colValues data columnName).filter (fun v => !v.isMissing)
  if values.length = 0 then ⟨columnName, 0, 0, [], "", 0⟩
  else
    let entries := (dedupFirst values).map (fun v => (v, values.count v))
    let sorted := (entries.insertionSort (fun a b => b.2 ≤ a.2)).map (fun e =>
      (⟨(e.1).toStr, e.2, roundTo 1 ((e.2 : ℚ) / values.length * 100)⟩ : CategoryCount))
    let topCategories := sorted.take 10
    let dominant := sorted.headD ⟨"", 0, 0⟩
    ⟨columnName, (dedupFirst values).length, roundToR 2 (computeEntropy values),
      topCategories, dominant.value, dominant.percent⟩

/-- Result of the descriptive stage. -/
structure DescriptiveResult where
  numeric : List NumericStats
  categorical : List CategoricalStats

/-- `computeDescriptiveStats`: numeric statistics for continuous/discrete
columns, categorical statistics for categorical columns. -/
noncomputable def computeDescriptiveStats (data : List Row)
    (columnProfile : List ColumnProfile) : DescriptiveResult :=
  ⟨(columnProfile.filter (fun col => col.detectedType == ColumnType.continuous
      || col.detectedType == ColumnType.discrete)).map
        (fun col => computeNumericStats data col.column),
   (columnProfile.filter (fun col => col.detectedType == ColumnType.categorical)).map
      (fun col => computeCategoricalStats data col.column)⟩

/-! ## Claim C3 -/

/-- Following the spec's words for claim C3 (for comparison with the source's
`standardDeviation`): the sample standard deviation — sum of squared
deviations divided by n−1, then square root. -/
noncomputable def sampleStdSpec (x : List ℚ) : ℝ :=
  Real.sqrt (((x.map (fun v => (v - meanQ x) * (v - meanQ x))).sum / ((x.length : ℚ) - 1) : ℚ))

theorem computeNumericStats_column (data : List Row) (c : String) :
    (computeNumericStats data c).column = c := by
  simp only [computeNumericStats]
  split <;> rfl

/-- C3 (amended): for every numeric-classified column with at least two
numeric values, the standard deviation reported by the descriptive stage is
the POPULATION standard deviation (sum of squared deviations divided by n,
then square root), rounded to 2 decimal places — not the sample standard
deviation the claim states. -/
theorem descriptive_std_population (data : List Row) (columnProfile : List ColumnProfile) :
    ∀ s ∈ (computeDescriptiveStats data columnProfile).numeric,
      2 ≤ (getNumericValues data s.column).length →
      s.std = roundToR 2 (Real.sqrt
        (((((getNumericValues data s.column).map (fun v =>
            (v - meanQ (getNumericValues data s.column))
              * (v - meanQ (getNumericValues data s.column)))).sum
          / ((getNumericValues data s.column).length : ℚ) : ℚ) : ℝ))) := by
  intro s hs h2
  simp only [computeDescriptiveStats, List.mem_map] at hs
  obtain ⟨col, hcol, rfl⟩ := hs
  rw [computeNumericStats_column] at h2 ⊢
  simp only [computeNumericStats]
  rw [if_neg (by omega)]
  show roundToR 2 (standardDeviation (getNumericValues data col.column)) = _
  rw [standardDeviation, if_neg (by omega)]
  rfl

/-- Single continuous column profile for C3. -/
def c3Profile : List ColumnProfile := [⟨"a", .continuous, "numeric", 2, 0⟩]

/-- Column `a` with values 0 and 2: population std 1, sample std √2. -/
def c3Data : List Row := [[("a", .num 0)], [("a", .num 2)]]

theorem descriptive_std_population_witness :
    computeNumericStats c3Data "a" ∈ (computeDescriptiveStats c3Data c3Profile).numeric ∧
    (computeNumericStats c3Data "a").std = roundToR 2 (Real.sqrt
      (((((getNumericValues c3Data ((computeNumericStats c3Data "a").column)).map (fun v =>
          (v - meanQ (getNumericValues c3Data ((computeNumericStats c3Data "a").column)))
            * (v - meanQ (getNumericValues c3Data
                ((computeNumericStats c3Data "a").column))))).sum
        / ((getNumericValues c3Data ((computeNumericStats c3Data "a").column)).length : ℚ)
          : ℚ) : ℝ))) := by
  have hmem : computeNumericStats c3Data "a" ∈ (computeDescriptiveStats c3Data c3Profile).numeric := by
    simp [computeDescriptiveStats, c3Profile]
  refine ⟨hmem, descriptive_std_population c3Data c3Profile _ hmem ?_⟩
  rw [computeNumericStats_column]
  decide

/-- C3 counterexample: on values {0, 2} the stage reports std = 1.00 (the
population formula), while the sample formula the claim states gives √2,
which rounds to 1.41 ≠ 1. -/
theorem descriptive_std_not_sample_counterexample :
    ((computeDescriptiveStats c3Data c3Profile).numeric.headD default).std = 1 ∧
    roundToR 2 (sampleStdSpec (getNumericValues c3Data "a")) ≠ 1 := by
  constructor
  · have hl : (computeDescriptiveStats c3Data c3Profile).numeric
        = [computeNumericStats c3Data "a"] := by
      simp [computeDescriptiveStats, c3Profile]
    rw [hl]
    simp only [List.headD]
    have hv : getNumericValues c3Data "a" = [0, 2] := by decide
    simp only [computeNumericStats, hv]
    rw [if_neg (by norm_num)]
    show roundToR 2 (standardDeviation [0, 2]) = 1
    rw [standardDeviation, if_neg (by norm_num)]
    have hvar : varianceQ [0, 2] = 1 := by decide
    rw [hvar]
    rw [show (((1:ℚ)):ℝ) = 1 by norm_num, Real.sqrt_one]
    rw [roundToR]
    norm_num
  · have hv : getNumericValues c3Data "a" = [0, 2] := by decide
    rw [hv]
    have hval : ((([0,2] : List ℚ).map (fun v => (v - meanQ [0,2]) * (v - meanQ [0,2]))).sum
        / ((([0,2] : List ℚ).length : ℚ) - 1) : ℚ) = 2 := by decide
    rw [sampleStdSpec, hval]
    rw [show (((2:ℚ)):ℝ) = 2 by norm_num]
    intro heq
    rw [roundToR] at heq
    have h14 : (7/5 : ℝ) ≤ Real.sqrt 2 := by
      nlinarith [Real.sq_sqrt (show (0:ℝ) ≤ 2 by norm_num), Real.sqrt_nonneg 2]
    have hround : (140 : ℤ) ≤ round (Real.sqrt 2 * 10 ^ 2) := by
      rw [round_eq]
      refine Int.le_floor.mpr ?_
      push_cast
      linarith
    have h100 : ((round (Real.sqrt 2 * 10 ^ 2) : ℤ) : ℚ) = 100 := by
      field_simp at heq
      exact_mod_cast heq
    have hfin : round (Real.sqrt 2 * 10 ^ 2) = 100 := by exact_mod_cast h100
    omega

/-! ## Target detection (`src/unnamed/part_001`) and baseline modelling
(`src/lib/pythonClient.ts`) -/

/-- Task type returned by `determineTaskType`. -/
inductive TaskType where
  | classification
  | regression
  | unknown
deriving DecidableEq, Repr

/-- Names matched by the thirteen anchored case-insensitive regexes of
strategy 1 of `autoDetectTarget`; an anchored `^name$` regex with the `i`
flag holds of exactly the strings that lowercase to `name`. -/
def targetPatterns : List String :=
  ["target", "label", "class", "y", "outcome", "result", "churn", "fraud",
   "default", "survived", "price", "sales", "revenue"]

/-- Models `autoDetectTarget`. Strategy 1: the first pattern (outer loop) for
which some column name (inner `find`) matches. Strategy 2: binary categorical
columns, preferring one whose lowercased value set has yes/no, true/false or
1/0, else the first. Strategy 3: the last column, if categorical or discrete.
JS reads `String(undefined)` as "undefined" where the embedding reads "null";
neither is empty nor equal to any of the six checked strings, so the
behaviour agrees. -/
def autoDetectTarget (data : List Row) (columnProfile : List ColumnProfile) :
    Option String :=
  if data.length = 0 ∨ columnProfile.length = 0 then none
  else
    let columns := columnProfile.map (·.column)
    match targetPatterns.findSome?
        (fun pat => columns.find? (fun col => lowerStr col == pat)) with
    | some m => some m
    | none =>
      match columnProfile.filter (fun col =>
          col.detectedType == ColumnType.categorical && col.uniqueValues == 2) with
      | b0 :: brest =>
        match (b0 :: brest).find? (fun col =>
            let values := (data.map
              (fun row => lowerStr ((Row.get row col.column).toStr))).filter
                (fun v => v != "")
            (values.contains "yes" && values.contains "no")
              || (values.contains "true" && values.contains "false")
              || (values.contains "1" && values.contains "0")) with
        | some col => some col.column
        | none => some b0.column
      | [] =>
        let lastColumn := columns.getD (columns.length - 1) ""
        match columnProfile.find? (fun col => col.column == lastColumn) with
        | some lastProfile =>
          if lastProfile.detectedType == ColumnType.categorical
              || lastProfile.detectedType == ColumnType.discrete then
            some lastColumn
          else none
        | none => none

/-- Models `determineTaskType`: classification for a categorical or discrete
target, regression for a continuous one, unknown otherwise (the `data`
argument is unused in the source too). -/
def determineTaskType (data : List Row) (targetColumn : String)
    (columnProfile : List ColumnProfile) : TaskType :=
  match data, columnProfile.find? (fun col => col.column == targetColumn) with
  | _, none => .unknown
  | _, some profile =>
    if profile.detectedType == ColumnType.categorical
        || profile.detectedType == ColumnType.discrete then .classification
    else if profile.detectedType == ColumnType.continuous then .regression
    else .unknown

/-- Models `selectFeatures`: every profiled column except the target and the
datetime/unknown ones (the `data` argument is unused in the source too). -/
def selectFeatures (data : List Row) (targetColumn : String)
    (columnProfile : List ColumnProfile) : List String :=
  match data with
  | _ =>
    (columnProfile.filter (fun col =>
      !(col.column == targetColumn)
        && !(col.detectedType == ColumnType.datetime)
        && !(col.detectedType == ColumnType.unknown))).map (·.column)

/-- One entry of the feature-importance list. -/
structure FeatureImportance where
  feature : String
  importance : ℚ
deriving DecidableEq, Repr

/-- Models the `PredictiveResults` record. Metric values are JS numbers,
embedded in ℝ; `targetType` is the literal string the source stores. -/
structure PredictiveResults where
  targetColumn : String
  targetType : String
  featuresUsed : List String
  modelType : String
  metrics : List (String × ℝ)
  featureImportance : List FeatureImportance
  confusionMatrix : Option (List (List ℤ))

/-- Models `generateBinaryConfusionMatrix` (`Math.floor` at each step). -/
def generateBinaryConfusionMatrix (totalSamples : ℕ) (accuracy : ℚ) :
    List (List ℤ) :=
  let testSize : ℤ := ⌊(totalSamples : ℚ) * (2 / 10)⌋
  let correctPredictions : ℤ := ⌊(testSize : ℚ) * accuracy⌋
  let incorrectPredictions : ℤ := testSize - correctPredictions
  let truePositives : ℤ := ⌊(correctPredictions : ℚ) * (4 / 10)⌋
  let trueNegatives : ℤ := correctPredictions - truePositives
  let falsePositives : ℤ := ⌊(incorrectPredictions : ℚ) * (6 / 10)⌋
  let falseNegatives : ℤ := incorrectPredictions - falsePositives
  [[trueNegatives, falsePositives], [falseNegatives, truePositives]]

/-- Models `trainClassificationModel`, with `Math.random()` abstracted as the
stream `rand` (one fresh index per call, in evaluation order: one per feature
for importances, then accuracy, precision, recall). The JS sort is stable, as
is `insertionSort`; the importance normalisation divides by the rounded total
as the source does. -/
noncomputable def trainClassificationModel (rand : ℕ → ℚ) (data : List Row)
    (targetColumn : String) (features : List String)
    (columnProfile : List ColumnProfile) : PredictiveResults :=
  let targetValues := data.map (fun row => Row.get row targetColumn)
  let uniqueTargets := dedupFirst targetValues
  let fi0 := features.enum.map (fun p =>
    let profile := columnProfile.find? (fun col => col.column == p.2)
    let isNumeric := profile.elim false (fun pr =>
      pr.detectedType == ColumnType.continuous
        || pr.detectedType == ColumnType.discrete)
    let importance : ℚ :=
      if isNumeric then rand p.1 * (3 / 10) + 1 / 10
      else rand p.1 * (2 / 10) + 5 / 100
    (⟨p.2, roundTo 2 importance⟩ : FeatureImportance))
  let fiSorted := fi0.insertionSort (fun a b => b.importance ≤ a.importance)
  let totalImportance := (fiSorted.map (·.importance)).sum
  let featureImportance := fiSorted.map (fun f =>
    (⟨f.feature, roundTo 2 (f.importance / totalImportance)⟩ : FeatureImportance))
  let n := features.length
  let accuracy := 3 / 4 + rand n * (15 / 100)
  let precision := 65 / 100 + rand (n + 1) * (15 / 100)
  let recallM := 55 / 100 + rand (n + 2) * (15 / 100)
  let f1 := 2 * precision * recallM / (precision + recallM)
  let confusionMatrix :=
    if uniqueTargets.length = 2 then
      some (generateBinaryConfusionMatrix data.length accuracy)
    else none
  { targetColumn := targetColumn, targetType := "classification",
    featuresUsed := features, modelType := "random_forest",
    metrics := [("accuracy", ((roundTo 3 accuracy : ℚ) : ℝ)),
      ("precision", ((roundTo 3 precision : ℚ) : ℝ)),
      ("recall", ((roundTo 3 recallM : ℚ) : ℝ)),
      ("f1_score", ((roundTo 3 f1 : ℚ) : ℝ))],
    featureImportance := featureImportance, confusionMatrix := confusionMatrix }

/-- Models `trainRegressionModel` (`Math.random()` abstracted as `rand`, one
fresh index per call: one per feature, then r2). The source divides by
`targetValues.length` with no emptiness guard; the embedding's `/ 0 = 0`
stands in for the JS `NaN` on that degenerate path. -/
noncomputable def trainRegressionModel (rand : ℕ → ℚ) (data : List Row)
    (targetColumn : String) (features : List String)
    (columnProfile : List ColumnProfile) : PredictiveResults :=
  match columnProfile with
  | _ =>
    let targetValues := getNumericValues data targetColumn
    let mean := targetValues.sum / (targetValues.length : ℚ)
    let variance :=
      (targetValues.map (fun v => (v - mean) ^ 2)).sum / (targetValues.length : ℚ)
    let fi0 := features.enum.map (fun p =>
      (⟨p.2, roundTo 2 (rand p.1 * (3 / 10) + 1 / 10)⟩ : FeatureImportance))
    let fiSorted := fi0.insertionSort (fun a b => b.importance ≤ a.importance)
    let totalImportance := (fiSorted.map (·.importance)).sum
    let featureImportance := fiSorted.map (fun f =>
      (⟨f.feature, roundTo 2 (f.importance / totalImportance)⟩ : FeatureImportance))
    let r2 := 6 / 10 + rand features.length * (3 / 10)
    let rmse : ℝ := Real.sqrt ((variance : ℚ) : ℝ) * (1 - (r2 : ℝ) * 0.5)
    let mae : ℝ := rmse * (8 / 10)
    { targetColumn := targetColumn, targetType := "regression",
      featuresUsed := features, modelType := "random_forest",
      metrics := [("r2_score", ((roundTo 3 r2 : ℚ) : ℝ)),
        ("rmse", ((roundToR 2 rmse : ℚ) : ℝ)),
        ("mae", ((roundToR 2 mae : ℚ) : ℝ))],
      featureImportance := featureImportance, confusionMatrix := none }

/-- Models `trainClusteringModel`: features are the continuous/discrete
profiled columns, `clusters = min(5, ceil(sqrt(n / 2)))`, the random inertia
drawn from `rand 0`. -/
noncomputable def trainClusteringModel (rand : ℕ → ℚ) (data : List Row)
    (columnProfile : List ColumnProfile) : PredictiveResults :=
  let numericColumns := (columnProfile.filter (fun col =>
    col.detectedType == ColumnType.continuous
      || col.detectedType == ColumnType.discrete)).map (·.column)
  let optimalK : ℕ := min 5 ⌈Real.sqrt ((data.length : ℝ) / 2)⌉.toNat
  { targetColumn := "none", targetType := "clustering",
    featuresUsed := numericColumns, modelType := "k_means",
    metrics := [("clusters", (optimalK : ℝ)),
      ("inertia", ((roundTo 2 (rand 0 * 1000 + 500) : ℚ) : ℝ))],
    featureImportance := [], confusionMatrix := none }

/-- Models `trainBaselineModel`: `null` for fewer than 10 rows; clustering
when no target is auto-detected; otherwise `null` when feature selection is
empty or the task type is neither classification nor regression. The JS
`!targetColumn` guard also fires on a column literally named "", which the
`Option` embedding instead sends down the supervised path; no claim concerns
a dataset with an empty-string column name. -/
noncomputable def trainBaselineModel (rand : ℕ → ℚ) (data : List Row)
    (columnProfile : List ColumnProfile) : Option PredictiveResults :=
  if data.length < 10 then none
  else
    match autoDetectTarget data columnProfile with
    | none => some (trainClusteringModel rand data columnProfile)
    | some targetColumn =>
      let taskType := determineTaskType data targetColumn columnProfile
      let features := selectFeatures data targetColumn columnProfile
      if features.length = 0 then none
      else if taskType = TaskType.classification then
        some (trainClassificationModel rand data targetColumn features columnProfile)
      else if taskType = TaskType.regression then
        some (trainRegressionModel rand data targetColumn features columnProfile)
      else none

/-- C2 (amended): on a dataset of at least 10 rows with no auto-detected
target, the baseline stage does return the clustering result with
`targetColumn = "none"` and `targetType = "clustering"`; but `null` is
returned exactly when the dataset has fewer than 10 rows — even with no
detectable target — or a target is detected and feature selection is empty
or the target's task type is neither classification nor regression. -/
theorem trainBaselineModel_clustering_iff (rand : ℕ → ℚ) (data : List Row)
    (columnProfile : List ColumnProfile) (h10 : 10 ≤ data.length) :
    (autoDetectTarget data columnProfile = none →
      trainBaselineModel rand data columnProfile
        = some (trainClusteringModel rand data columnProfile) ∧
      (trainClusteringModel rand data columnProfile).targetColumn = "none" ∧
      (trainClusteringModel rand data columnProfile).targetType = "clustering") ∧
    (trainBaselineModel rand data columnProfile = none ↔
      ∃ t, autoDetectTarget data columnProfile = some t ∧
        (selectFeatures data t columnProfile = [] ∨
          determineTaskType data t columnProfile = TaskType.unknown)) := by
  have hlt : ¬ data.length < 10 := by omega
  constructor
  · intro h
    refine ⟨?_, rfl, rfl⟩
    unfold trainBaselineModel
    rw [if_neg hlt, h]
  · unfold trainBaselineModel
    rw [if_neg hlt]
    cases hAD : autoDetectTarget data columnProfile with
    | none => simp
    | some t =>
      simp only [Option.some.injEq, exists_eq_left']
      by_cases hf : selectFeatures data t columnProfile = []
      · simp [hf]
      · cases hT : determineTaskType data t columnProfile <;>
          simp [hf, hT, List.length_eq_zero]

/-- Ten-row dataset whose single column is continuous, so no strategy of
target auto-detection fires. -/
def c2Data : List Row :=
  (List.range 10).map (fun i => [("a", Value.num i)])

/-- Profile marking the one column of `c2Data` continuous. -/
def c2Profile : List ColumnProfile := [⟨"a", .continuous, "numeric", 10, 0⟩]

/-- Concrete check for C2: `c2Data` has 10 rows and no detectable target, and
the baseline stage returns the clustering result for it. -/
theorem trainBaselineModel_clustering_iff_witness :
    10 ≤ c2Data.length ∧ autoDetectTarget c2Data c2Profile = none ∧
    trainBaselineModel (fun j => 0) c2Data c2Profile
      = some (trainClusteringModel (fun j => 0) c2Data c2Profile) ∧
    (trainClusteringModel (fun j => 0) c2Data c2Profile).targetColumn = "none" ∧
    (trainClusteringModel (fun j => 0) c2Data c2Profile).targetType = "clustering" :=
  ⟨by decide, by decide,
    (trainBaselineModel_clustering_iff (fun j => 0) c2Data c2Profile
      (by decide)).1 (by decide)⟩

/-- Five-row version of `c2Data`: below the 10-row gate. -/
def c2SmallData : List Row :=
  (List.range 5).map (fun i => [("a", Value.num i)])

/-- C2 counterexample: on a 5-row dataset with no detectable target the
baseline stage returns `null`, not the clustering result the claim promises
for every no-target dataset. -/
theorem baseline_small_none_counterexample :
    autoDetectTarget c2SmallData c2Profile = none ∧
    trainBaselineModel (fun j => 0) c2SmallData c2Profile = none :=
  ⟨by decide, rfl⟩
